import Mathlib

/-!
# EmuViewController: menu / emulation mode switching

A shallow embedding of `EmuFramework/src/EmuViewController.cc`.

* Windows are identified by a number; `origWin == win` in the source compares
  window identity and becomes equality of identifiers.
* The controller, the per-window records (`WindowData`), the per-window draw-event
  priority and the menu view stack form one state record, `EmuViewController`.
* Calls into collaborators whose bodies lie outside the controller (view hooks,
  renderer and window setters, application requests) are recorded, in call order,
  in the `log` field of the state.  An operation that returns the state it was given
  has therefore changed nothing and has called no collaborator.
* Read-only answers of the application and the build configuration are gathered in
  `Env`.
* Draw callbacks append to a command buffer, a list of `DrawCommand`, and pass the
  controller state through.
* The dismissal part of `imagine/src/gui/View.hh` is embedded as the record `View`, with
  a log of its own for `deinit`, the dismiss handler and display updates.
-/

namespace EmuEx

/-- Identity of an `IG::Window`. -/
abbrev Window := Nat

namespace Input

/-- Logical key code (`Input::Key`). -/
abbrev Key := Nat

/-- Modelled from the spec: `Input::Map`, the input map a key event belongs to; the
source only tests for `SYSTEM`. -/
inductive Map where
  | UNKNOWN
  | SYSTEM
  | POINTER
  | REL_POINTER
  | WIIMOTE
  | ICONTROLPAD
  | ZEEMOTE
  | ICADE
  | PS3PAD
  | APPLE_GAME_CONTROLLER
  deriving DecidableEq, Repr

/-- Modelled from the spec: `Input::Action`, the state carried by an event; the source
only tests for `PUSHED`. -/
inductive Action where
  | UNUSED
  | RELEASED
  | PUSHED
  | MOVED
  | CANCELED
  deriving DecidableEq, Repr

/-- Modelled from the spec: `Input::Device::Subtype`, the device classification used for
the one platform-specific key remap. -/
inductive Subtype where
  | NONE
  | XPERIA_PLAY
  | PS3_CONTROLLER
  | PANDORA_HANDHELD
  | GENERIC_GAMEPAD
  deriving DecidableEq, Repr

/-- The default keys a key event can be compared with (`Input::DefaultKey`); the source
only uses `CANCEL`. -/
inductive DefaultKey where
  | CONFIRM
  | CANCEL
  deriving DecidableEq, Repr

/-- Modelled from the spec: `Input::KeyEvent`: a logical key code, a pushed and repeated
state, the map and the subtype of the sending device. -/
structure KeyEvent where
  map : Map
  key : Key
  state : Action
  repeatCount : Nat
  deviceSubtype : Subtype
  deriving DecidableEq, Repr

/-- Modelled from the spec: `Input::MotionEvent` (pointer input); none of its content is
inspected by the controller. -/
structure MotionEvent where
  pointerId : Nat
  state : Action
  deriving DecidableEq, Repr

/-- An `Input::Event` is either a motion event or a key event. -/
inductive Event where
  | motion (m : MotionEvent)
  | key (k : KeyEvent)
  deriving DecidableEq, Repr

/-- The call `e.keyEvent()`: the key event held by `e`, if any. -/
def Event.keyEvent : Event → Option KeyEvent
  | .motion _ => none
  | .key k => some k

/-- The call `keyEv.repeated()`. -/
def KeyEvent.repeated (k : KeyEvent) : Bool :=
  k.repeatCount != 0

/-- The call `keyEv.pushed()` without a key argument. -/
def KeyEvent.pushed (k : KeyEvent) : Bool :=
  k.state == Action.PUSHED

end Input

open Input

/-- The three views owned directly by the controller. -/
inductive ViewRef where
  | emuView
  | emuInputView
  | popup
  deriving DecidableEq, Repr

/-- Per-window record (`WindowData`) of the window registry. -/
structure WindowData where
  hasEmuView : Bool
  hasPopup : Bool
  projM : Nat
  deriving DecidableEq, Repr

/-- Collaborator calls issued by the controller and by the menu view stack. -/
inductive Effect where
  /-- Call `viewStack.top().onHide()` -/
  | topOnHide
  /-- Call `win.screen()->setFrameInterval(interval)` -/
  | setFrameInterval (win : Window) (interval : Nat)
  /-- Call `renderer().setWindowValidOrientations(win, orientations)` -/
  | setWindowValidOrientations (win : Window) (orientations : Nat)
  /-- Call `win.setIntendedFrameRate(rate)` -/
  | setIntendedFrameRate (win : Window) (rate : Nat)
  /-- Call `emuInputView.postDraw()` -/
  | emuInputViewPostDraw
  /-- Call `emuInputView.resetInput()` -/
  | emuInputViewResetInput
  /-- Call `emuView.place()` -/
  | emuViewPlace
  /-- Call `emuInputView.place()` -/
  | emuInputViewPlace
  /-- Call `emuInputView.setSystemGestureExclusion(enable)` -/
  | setSystemGestureExclusion (enable : Bool)
  /-- Call `emuView.postDraw()` -/
  | emuViewPostDraw
  /-- Call `viewStack.show()`, also issued when a pop re-shows the new top -/
  | viewStackShow
  /-- Call `viewStack.top().postDraw()` -/
  | topPostDraw
  /-- Call `windowData(win).applyViewRect(view)` -/
  | applyViewRect (win : Window) (view : ViewRef)
  /-- Call `emuInputView.inputEvent(e)` -/
  | emuInputViewInputEvent (e : Event)
  /-- Call `ViewStack::inputEvent(e)`: delivery of `e` to the menu stack and its top view -/
  | viewStackInputEvent (e : Event)
  /-- Call `app().showExitAlert(top().attachParams(), e)` -/
  | showExitAlert (e : Event)
  /-- Call `app().appContext().exit()` -/
  | exit
  /-- Call `app().showEmulation()` -/
  | showEmulation
  deriving DecidableEq, Repr

/-- One entry of the menu view stack: the name of the view, its modal flag, and the
answer of its input handler (`View::inputEvent`). -/
structure ViewEntry where
  name : String
  isModal : Bool
  inputEvent : Event → Bool

/-- Modelled from the spec: the data of `ViewStack` (imagine `ViewStack` is not among the
sources): an ordered sequence of owned views, bottom first, and the navigation view, of
which the visibility of the right button is kept. -/
structure ViewStack where
  view : List ViewEntry
  navRightBtn : Bool

/-- Read-only surroundings of the controller: build configuration (`Config::`), answers
of the application and of the emulated system, and the input overlay handler. -/
structure Env where
  envIsAndroid : Bool
  envIsLinux : Bool
  MACHINE_IS_PANDORA : Bool
  SCREEN_FRAME_INTERVAL : Bool
  /-- Value of `app().system().hasContent()` -/
  hasContent : Bool
  /-- Value of `appContext().mainWindow()` -/
  mainWindow : Window
  /-- Value of `app().frameInterval()` -/
  frameInterval : Nat
  /-- Value of `app().emuOrientation()` -/
  emuOrientation : Nat
  /-- Value of `app().menuOrientation()` -/
  menuOrientation : Nat
  /-- Value of `app().intendedFrameRate(win)`; the value is passed on unchanged -/
  intendedFrameRate : Window → Nat
  /-- Constant `Keycode::MENU` -/
  keyMENU : Key
  /-- Constant `Keycode::GAME_Y` -/
  keyGAME_Y : Key
  /-- Constant `Keycode::SPACE` -/
  keySPACE : Key
  /-- Answer of `KeyEvent::isDefaultKey(defaultKey)`: the platform table of default keys -/
  isDefaultKey : KeyEvent → DefaultKey → Bool
  /-- Result of `emuInputView.inputEvent(e)` -/
  emuInputViewInputEvent : Event → Bool
  /-- Default argument of `Window::setDrawEventPriority` -/
  defaultDrawEventPriority : Int

/-- State of `EmuViewController` together with the window registry, the draw-event
priority of each window, and the log of collaborator calls. -/
structure EmuViewController where
  showingEmulation : Bool
  /-- Value of `emuView.window()` -/
  emuViewWindow : Window
  /-- Value of `emuInputView.window()` -/
  emuInputViewWindow : Window
  /-- Value of `popup.window()` -/
  popupWindow : Window
  /-- View bound by `emuView.setLayoutInputView` (`none` for `nullptr`) -/
  layoutInputView : Option ViewRef
  /-- Record `windowData(win)` -/
  windowData : Window → WindowData
  /-- Draw-event priority held by each window -/
  drawEventPriority : Window → Int
  viewStack : ViewStack
  log : List Effect

namespace EmuViewController

/-- Record a collaborator call. -/
def emit (s : EmuViewController) (x : Effect) : EmuViewController :=
  { s with log := s.log ++ [x] }

/-- Assignment `windowData(win).hasEmuView = b`. -/
def setHasEmuView (s : EmuViewController) (win : Window) (b : Bool) : EmuViewController :=
  { s with windowData := fun w => if w = win then { s.windowData w with hasEmuView := b } else s.windowData w }

/-- Assignment `windowData(win).hasPopup = b`. -/
def setHasPopup (s : EmuViewController) (win : Window) (b : Bool) : EmuViewController :=
  { s with windowData := fun w => if w = win then { s.windowData w with hasPopup := b } else s.windowData w }

end EmuViewController

/-- The call `keyEv.pushed(defaultKey)`: pushed state and the key is the given default key. -/
def Input.KeyEvent.pushedDefault (env : Env) (k : KeyEvent) (d : DefaultKey) : Bool :=
  k.state == Action.PUSHED && env.isDefaultKey k d

/-- Modelled from the spec: `Window::setDrawEventPriority(priority)` (imagine `Window` is
not among the sources): stores the priority on the window and returns the one it held. -/
def setDrawEventPriority (win : Window) (priority : Int) (s : EmuViewController) :
    Int × EmuViewController :=
  (s.drawEventPriority win,
    { s with drawEventPriority := fun w => if w = win then priority else s.drawEventPriority w })

namespace ViewStack

/-- Modelled from the spec: `ViewStack::size()`. -/
def size (st : ViewStack) : Nat :=
  st.view.length

/-- Modelled from the spec: `ViewStack::hasModalView()`: whether an entry flagged modal is
in the stack. -/
def hasModalView (st : ViewStack) : Bool :=
  st.view.any (fun v => v.isModal)

/-- First index, from the bottom and counting from `start`, of an entry named `name`;
`-1` when there is none. -/
def viewIdxFrom (name : String) : List ViewEntry → Int → Int
  | [], _ => -1
  | v :: rest, start => if v.name == name then start else viewIdxFrom name rest (start + 1)

/-- Modelled from the spec: `ViewStack::contains(name)`: whether an entry of that name is
in the stack. -/
def contains (st : ViewStack) (name : String) : Bool :=
  st.view.any (fun v => v.name == name)

/-- Modelled from the spec: `ViewStack::viewIdx(name)`: the first matching entry by name,
searched from the bottom; a negative value reports that the name was not found. -/
def viewIdx (st : ViewStack) (name : String) : Int :=
  viewIdxFrom name st.view 0

end ViewStack

/-- Modelled from the spec: `ViewStack::inputEvent(e)`: delegates to the input handler of
the current top view and returns whether it consumed the event. -/
def ViewStack.inputEvent (e : Event) (s : EmuViewController) : Bool × EmuViewController :=
  (match s.viewStack.view.getLast? with
    | some top => top.inputEvent e
    | none => false,
   s.emit (.viewStackInputEvent e))

/-- Modelled from the spec: `ViewStack::popAndShow()`: removes the top entry if more than
one remains and re-shows the new top; popping the last entry is rejected. -/
def ViewStack.popAndShow (s : EmuViewController) : EmuViewController :=
  if 1 < s.viewStack.size then
    ({ s with viewStack := { s.viewStack with view := s.viewStack.view.dropLast } }).emit .viewStackShow
  else s

/-- Modelled from the spec: `ViewStack::popTo(idx)`: removes all entries above the one at
`idx`; an index that names no entry is ignored. -/
def ViewStack.popTo (idx : Int) (s : EmuViewController) : EmuViewController :=
  if 0 ≤ idx ∧ idx < s.viewStack.size then
    { s with viewStack := { s.viewStack with view := s.viewStack.view.take (idx.toNat + 1) } }
  else s

/-- Modelled from the spec: `navView()->showRightBtn(shown)`. -/
def ViewStack.showRightBtn (shown : Bool) (s : EmuViewController) : EmuViewController :=
  { s with viewStack := { s.viewStack with navRightBtn := shown } }

namespace EmuViewController

/-- Source function `EmuViewController::hasModalView`. -/
def hasModalView (s : EmuViewController) : Bool :=
  s.viewStack.hasModalView

/-- Source function `EmuViewController::isMenuDismissKey`. -/
def isMenuDismissKey (env : Env) (e : KeyEvent) (s : EmuViewController) : Bool :=
  if env.MACHINE_IS_PANDORA && e.deviceSubtype == Subtype.PANDORA_HANDHELD then
    if s.hasModalView then false
    else e.key == env.keySPACE || e.key == env.keyGAME_Y
  else e.key == env.keyMENU || e.key == env.keyGAME_Y

end EmuViewController

/-- Source function `shouldExitFromViewRootWithoutPrompt`. -/
def shouldExitFromViewRootWithoutPrompt (env : Env) (e : KeyEvent) : Bool :=
  e.map == Map.SYSTEM && (env.envIsAndroid || env.envIsLinux)

/-- Source function `EmuMenuViewStack::inputEvent`. -/
def EmuMenuViewStack.inputEvent (env : Env) (e : Event) (s : EmuViewController) :
    Bool × EmuViewController :=
  if (ViewStack.inputEvent e s).1 then (true, (ViewStack.inputEvent e s).2)
  else
    let s1 := (ViewStack.inputEvent e s).2
    match e.keyEvent with
    | some keyEv =>
      let hasEmuContent := env.hasContent
      if keyEv.pushedDefault env DefaultKey.CANCEL then
        if s1.viewStack.size == 1 then
          if keyEv.repeated then (true, s1)
          else if hasEmuContent || (!hasEmuContent && !shouldExitFromViewRootWithoutPrompt env keyEv) then
            (true, s1.emit (.showExitAlert e))
          else
            (true, s1.emit .exit)
        else
          (true, ViewStack.popAndShow s1)
      else if keyEv.pushed && s1.isMenuDismissKey env keyEv && !s1.viewStack.hasModalView then
        (true, s1.emit .showEmulation)
      else (false, s1)
    | none => (false, s1)

namespace EmuViewController

/-- Source function `EmuViewController::inputEvent`. -/
def inputEvent (env : Env) (e : Event) (s : EmuViewController) : Bool × EmuViewController :=
  if s.showingEmulation then
    (env.emuInputViewInputEvent e, s.emit (.emuInputViewInputEvent e))
  else EmuMenuViewStack.inputEvent env e s

/-- Source function `EmuViewController::extraWindowInputEvent`. -/
def extraWindowInputEvent (env : Env) (e : Event) (s : EmuViewController) :
    Bool × EmuViewController :=
  if s.showingEmulation && e.keyEvent.isSome then
    (env.emuInputViewInputEvent e, s.emit (.emuInputViewInputEvent e))
  else (false, s)

/-- Source function `EmuViewController::movePopupToWindow`. -/
def movePopupToWindow (win : Window) (s : EmuViewController) : EmuViewController :=
  let origWin := s.popupWindow
  if origWin = win then s
  else
    let s1 := s.setHasPopup origWin false
    let s2 := s1.setHasPopup win true
    { s2 with popupWindow := win }

/-- Source function `EmuViewController::moveEmuViewToWindow`. -/
def moveEmuViewToWindow (env : Env) (win : Window) (s : EmuViewController) : EmuViewController :=
  let origWin := s.emuViewWindow
  if origWin = win then s
  else
    let s1 :=
      if s.showingEmulation then
        let r := setDrawEventPriority origWin env.defaultDrawEventPriority s
        (setDrawEventPriority win r.1 r.2).2
      else s
    let s2 := s1.setHasEmuView origWin false
    let s3 := s2.setHasEmuView win true
    let s4 := { s3 with emuViewWindow := win }
    let s5 := s4.emit (.applyViewRect win ViewRef.emuView)
    if win = env.mainWindow then { s5 with layoutInputView := some ViewRef.emuInputView }
    else { s5 with layoutInputView := none }

/-- Source function `EmuViewController::configureWindowForEmulation`. -/
def configureWindowForEmulation (env : Env) (win : Window) (running : Bool)
    (s : EmuViewController) : EmuViewController :=
  let s1 := if env.SCREEN_FRAME_INTERVAL then s.emit (.setFrameInterval win env.frameInterval) else s
  let s2 := s1.emit (.setWindowValidOrientations win
    (if running then env.emuOrientation else env.menuOrientation))
  let s3 := s2.emit (.setIntendedFrameRate win (if running then env.intendedFrameRate win else 0))
  movePopupToWindow (if running then s3.emuViewWindow else s3.emuInputViewWindow) s3

/-- Source function `EmuViewController::placeEmuViews`. -/
def placeEmuViews (s : EmuViewController) : EmuViewController :=
  (s.emit .emuViewPlace).emit .emuInputViewPlace

/-- Source function `EmuViewController::showEmulationView`, statement by statement: the
state reached after each statement of the body, in source order (`onHide` of the top
view; the assignment `showingEmulation = true`; `configureWindowForEmulation`; the
conditional `postDraw`; `resetInput`; `placeEmuViews`; `setSystemGestureExclusion`).  The
list is empty when the guard at the head of the function returns at once. -/
def showEmulationViewTrace (env : Env) (s : EmuViewController) : List EmuViewController :=
  if s.showingEmulation then []
  else
    let s1 := s.emit .topOnHide
    let s2 := { s1 with showingEmulation := true }
    let s3 := configureWindowForEmulation env s2.emuViewWindow true s2
    let s4 := if s3.emuViewWindow != s3.emuInputViewWindow then s3.emit .emuInputViewPostDraw else s3
    let s5 := s4.emit .emuInputViewResetInput
    let s6 := s5.placeEmuViews
    let s7 := s6.emit (.setSystemGestureExclusion true)
    [s1, s2, s3, s4, s5, s6, s7]

/-- Source function `EmuViewController::showEmulationView`: the state after the last
statement of the body, or the state it was given when the guard at its head returns at
once. -/
def showEmulationView (env : Env) (s : EmuViewController) : EmuViewController :=
  (showEmulationViewTrace env s).getLast?.getD s

/-- Source function `EmuViewController::showMenuView`. -/
def showMenuView (env : Env) (updateTopView : Bool) (s : EmuViewController) : EmuViewController :=
  if !s.showingEmulation then s
  else
    let s1 := { s with showingEmulation := false }
    let s2 := s1.emit (.setSystemGestureExclusion false)
    let s3 := configureWindowForEmulation env s2.emuViewWindow false s2
    let s4 := s3.emit .emuViewPostDraw
    if updateTopView then (s4.emit .viewStackShow).emit .topPostDraw
    else s4

/-- Source function `EmuViewController::onSystemCreated`. -/
def onSystemCreated (s : EmuViewController) : EmuViewController :=
  ViewStack.showRightBtn true s

/-- Source function `EmuViewController::onSystemClosed`. -/
def onSystemClosed (s : EmuViewController) : EmuViewController :=
  let s1 := ViewStack.showRightBtn false s
  let idx := s1.viewStack.viewIdx "System Actions"
  if 0 < idx then ViewStack.popTo (idx - 1) s1
  else s1

end EmuViewController

/-- Collaborator calls recorded on the way from state `s` to a later state `t`. -/
def issued (s t : EmuViewController) : List Effect :=
  t.log.drop s.log.length

/-! ## Drawing -/

/-- Commands recorded in the command buffer (`Gfx::RendererCommands`) by a draw callback,
and the draw calls of the views that receive the buffer. -/
inductive DrawCommand where
  /-- Call `cmds.clear()` -/
  | clear
  /-- Call `cmds.basicEffect().setModelViewProjection(cmds, Gfx::Mat4::ident(), projM)` -/
  | setModelViewProjection (projM : Nat)
  /-- Call `emuView.draw(cmds)` -/
  | emuViewDraw
  /-- Call `emuInputView.draw(cmds)` -/
  | emuInputViewDraw
  /-- Call `viewStack.draw(cmds)` -/
  | viewStackDraw
  /-- Call `popup.draw(cmds)` -/
  | popupDraw
  /-- Call `cmds.present()` -/
  | present
  deriving DecidableEq, Repr

namespace EmuViewController

/-- Source function: the draw callback that `EmuViewController::drawMainWindow` hands to
`task.draw`.  It receives the window and the command buffer; the controller state is
passed through, the callback assigns to none of its fields. -/
def drawMainWindowCallback (win : Window) (s : EmuViewController) (cmds : List DrawCommand) :
    EmuViewController × List DrawCommand :=
  let c1 := cmds ++ [DrawCommand.clear]
  let winData := s.windowData win
  let c2 := c1 ++ [DrawCommand.setModelViewProjection winData.projM]
  let c5 :=
    if s.showingEmulation then
      let c3 := if winData.hasEmuView then c2 ++ [DrawCommand.emuViewDraw] else c2
      let c4 := c3 ++ [DrawCommand.emuInputViewDraw]
      if winData.hasPopup then c4 ++ [DrawCommand.popupDraw] else c4
    else
      let c3 := if winData.hasEmuView then c2 ++ [DrawCommand.emuViewDraw] else c2
      let c4 := c3 ++ [DrawCommand.viewStackDraw]
      c4 ++ [DrawCommand.popupDraw]
  (s, c5 ++ [DrawCommand.present])

/-- Source function: the draw callback that `EmuViewController::drawExtraWindow` hands to
`task.draw`. -/
def drawExtraWindowCallback (win : Window) (s : EmuViewController) (cmds : List DrawCommand) :
    EmuViewController × List DrawCommand :=
  let c1 := cmds ++ [DrawCommand.clear]
  let winData := s.windowData win
  let c2 := c1 ++ [DrawCommand.setModelViewProjection winData.projM]
  let c3 := c2 ++ [DrawCommand.emuViewDraw]
  let c4 := if winData.hasPopup then c3 ++ [DrawCommand.popupDraw] else c3
  (s, c4 ++ [DrawCommand.present])

/-- Window association at one window: its `hasEmuView` flag is set exactly when it is the
window of the emulation view, and its `hasPopup` flag exactly when it is the window of the
popup. -/
def associationOkAt (s : EmuViewController) (w : Window) : Bool :=
  ((s.windowData w).hasEmuView == decide (w = s.emuViewWindow)) &&
  ((s.windowData w).hasPopup == decide (w = s.popupWindow))

/-- Window association over a set of windows, given as a list. -/
def associationOk (wins : List Window) (s : EmuViewController) : Bool :=
  wins.all (fun w => s.associationOkAt w)

end EmuViewController

/-! ## View lifecycle (`imagine/src/gui/View.hh`) -/

/-- Calls made by a `View` into code outside `View.hh`. -/
inductive ViewEffect where
  /-- Call of the virtual `deinit()` -/
  | deinit
  /-- Call of the stored dismiss handler, identified by a number -/
  | dismissHandler (handler : Nat)
  /-- Call of the virtual `onShow()` -/
  | onShow
  /-- Call `Base::displayNeedsUpdate()` -/
  | displayNeedsUpdate
  deriving DecidableEq, Repr

/-- Interface `ViewAnimation`: an object with a state of its own, on which the four pure
virtual methods act; `update` also answers whether the animation is still running. -/
structure ViewAnimation where
  state : Nat
  initShow : Nat → Nat
  initActive : Nat → Nat
  initDismiss : Nat → Nat
  update : Nat → Bool × Nat

/-- State of a `View` (`View.hh`): the dismiss handler (`none` for `nullptr`), the attached
animation (`none` for `nullptr`), the display state, and the log of outside calls. -/
structure View where
  dismissHandler : Option Nat
  animation : Option ViewAnimation
  displayState : Nat
  log : List ViewEffect

namespace View

/-- Enumerator `SHOW`. -/
def SHOW : Nat := 0

/-- Enumerator `ACTIVE`. -/
def ACTIVE : Nat := 1

/-- Enumerator `HIDE`. -/
def HIDE : Nat := 2

/-- Record an outside call. -/
def emit (v : View) (x : ViewEffect) : View :=
  { v with log := v.log ++ [x] }

/-- Source function `View::doDismiss`. -/
def doDismiss (v : View) : View :=
  let v1 := v.emit ViewEffect.deinit
  match v1.dismissHandler with
  | some h => v1.emit (ViewEffect.dismissHandler h)
  | none => v1

/-- Source function `View::dismiss`. -/
def dismiss (v : View) (handler : Option Nat) : View :=
  let v1 :=
    match handler with
    | some h => { v with dismissHandler := some h }
    | none => v
  let v2 :=
    match v1.animation with
    | none => v1.doDismiss
    | some a => ({ v1 with animation := some { a with state := a.initDismiss a.state } }).emit
        ViewEffect.displayNeedsUpdate
  { v2 with displayState := HIDE }

/-- Source function `View::show`. -/
def show_ (v : View) (animated : Bool) : View :=
  let v1 :=
    match v.animation with
    | some a =>
      if animated then
        { v with animation := some { a with state := a.initShow a.state }, displayState := SHOW }
      else
        { v with animation := some { a with state := a.initActive a.state }, displayState := ACTIVE }
    | none => { v with displayState := ACTIVE }
  (v1.emit ViewEffect.onShow).emit ViewEffect.displayNeedsUpdate

/-- Source function `View::init`. -/
def init (v : View) (animation : Option ViewAnimation) : View :=
  { v with animation := animation }

/-- Source function `View::updateAnimation`. -/
def updateAnimation (v : View) : Bool × View :=
  match v.animation with
  | some a =>
    let v1 := { v with animation := some { a with state := (a.update a.state).2 } }
    if (a.update a.state).1 then
      (true, v1.emit ViewEffect.displayNeedsUpdate)
    else if v1.displayState = HIDE then
      (false, v1.doDismiss)
    else if v1.displayState = SHOW then
      (true, { v1 with displayState := ACTIVE })
    else (true, v1)
  | none =>
    if v.displayState = HIDE then
      (false, v.doDismiss)
    else if v.displayState = SHOW then
      (true, { v with displayState := ACTIVE })
    else (true, v)

/-- The owner polls `updateAnimation()` once per tick until it returns false; `fuel` bounds
the number of ticks, and `none` reports that the bound was reached while the view was
still answering true. -/
def pollUntilFalse : Nat → View → Option View
  | 0, _ => none
  | fuel + 1, v =>
    if (v.updateAnimation).1 then pollUntilFalse fuel (v.updateAnimation).2
    else some (v.updateAnimation).2

/-- Outside calls recorded on the way from view state `v` to a later state `w`. -/
def issued (v w : View) : List ViewEffect :=
  w.log.drop v.log.length

end View

/-- The animation answers true to exactly the next `n` calls of `update()` and false to the
call after them. -/
def ViewAnimation.finishesAfter : Nat → ViewAnimation → Bool
  | 0, a => !(a.update a.state).1
  | n + 1, a => (a.update a.state).1 &&
      ViewAnimation.finishesAfter n { a with state := (a.update a.state).2 }

/-! ## Concrete configurations -/

/-- A Linux desktop build with content loaded; key code 111 is the cancel key. -/
def linuxEnv : Env where
  envIsAndroid := false
  envIsLinux := true
  MACHINE_IS_PANDORA := false
  SCREEN_FRAME_INTERVAL := false
  hasContent := true
  mainWindow := 0
  frameInterval := 1
  emuOrientation := 1
  menuOrientation := 2
  intendedFrameRate := fun _ => 60
  keyMENU := 82
  keyGAME_Y := 100
  keySPACE := 62
  isDefaultKey := fun k d => d == DefaultKey.CANCEL && k.key == 111
  emuInputViewInputEvent := fun e => e.keyEvent.isSome
  defaultDrawEventPriority := 0

/-- The same build with no content loaded. -/
def linuxEnvNoContent : Env :=
  { linuxEnv with hasContent := false }

/-- A Pandora build. -/
def pandoraEnv : Env :=
  { linuxEnv with MACHINE_IS_PANDORA := true }

/-- A root menu whose input handler consumes nothing. -/
def mainMenuView : ViewEntry where
  name := "Main Menu"
  isModal := false
  inputEvent := fun _ => false

/-- The system actions menu, pushed non-modal; its handler consumes nothing. -/
def systemActionsView : ViewEntry where
  name := "System Actions"
  isModal := false
  inputEvent := fun _ => false

/-- A modal dialog whose handler consumes nothing. -/
def modalView : ViewEntry where
  name := "Alert"
  isModal := true
  inputEvent := fun _ => false

/-- MENU mode, every view on window 0, only the root menu on the stack. -/
def menuState : EmuViewController where
  showingEmulation := false
  emuViewWindow := 0
  emuInputViewWindow := 0
  popupWindow := 0
  layoutInputView := some ViewRef.emuInputView
  windowData := fun w => { hasEmuView := w == 0, hasPopup := w == 0, projM := 0 }
  drawEventPriority := fun _ => 0
  viewStack := { view := [mainMenuView], navRightBtn := true }
  log := []

/-- EMULATION mode, every view on window 0. -/
def emulationState : EmuViewController :=
  { menuState with showingEmulation := true }

/-- MENU mode with the system actions menu pushed on the root menu. -/
def systemActionsState : EmuViewController :=
  { menuState with viewStack := { view := [mainMenuView, systemActionsView], navRightBtn := true } }

/-- MENU mode with a stack whose only entry is named like the system actions menu. -/
def systemActionsRootState : EmuViewController :=
  { menuState with viewStack := { view := [systemActionsView], navRightBtn := true } }

/-- MENU mode with a modal dialog on top of the root menu. -/
def modalState : EmuViewController :=
  { menuState with viewStack := { view := [mainMenuView, modalView], navRightBtn := true } }

/-- A pushed, not repeated key event of the system map. -/
def pushedKey (key : Key) : KeyEvent where
  map := Map.SYSTEM
  key := key
  state := Action.PUSHED
  repeatCount := 0
  deviceSubtype := Subtype.NONE

/-- A pushed cancel key, first press. -/
def cancelKey : KeyEvent :=
  pushedKey 111

/-- A pushed cancel key reported as a repeat of a held key. -/
def cancelKeyRepeated : KeyEvent :=
  { cancelKey with repeatCount := 1 }

/-- A pointer event. -/
def pointerEvent : Event :=
  Event.motion { pointerId := 0, state := Action.PUSHED }

/-- MENU mode with every view on window 0, where window 0 holds draw-event priority 1
and every other window priority 0. -/
def menuStatePriority : EmuViewController :=
  { menuState with drawEventPriority := fun w => if w = 0 then 1 else 0 }

/-- EMULATION mode with the same draw-event priorities. -/
def emulationStatePriority : EmuViewController :=
  { menuStatePriority with showingEmulation := true }

/-- MENU mode with the emulation view on window 1 and overlay and popup on window 0. -/
def twoWindowState : EmuViewController :=
  { menuState with
    emuViewWindow := 1
    windowData := fun w => { hasEmuView := w == 1, hasPopup := w == 0, projM := w } }

/-- An animation that runs for as many more ticks as its state says. -/
def countdownAnimation (ticks : Nat) : ViewAnimation where
  state := ticks
  initShow := fun n => n
  initActive := fun _ => 0
  initDismiss := fun n => n
  update := fun n => (decide (0 < n), n - 1)

/-- An active view with dismiss handler 7 and no animation. -/
def plainView : View where
  dismissHandler := some 7
  animation := none
  displayState := View.ACTIVE
  log := []

/-- An active view with dismiss handler 7 and an animation of two more ticks. -/
def animatedView : View :=
  { plainView with animation := some (countdownAnimation 2) }

/-! ## Basic facts about the state record -/

namespace EmuViewController

/-- The result of `showEmulationView` written as the chain of its statements. -/
theorem showEmulationView_eq (env : Env) (s : EmuViewController) :
    showEmulationView env s =
      if s.showingEmulation = true then s
      else
        let s1 := s.emit Effect.topOnHide
        let s2 := { s1 with showingEmulation := true }
        let s3 := configureWindowForEmulation env s2.emuViewWindow true s2
        let s4 :=
          if (s3.emuViewWindow != s3.emuInputViewWindow) = true
          then s3.emit Effect.emuInputViewPostDraw else s3
        let s5 := s4.emit Effect.emuInputViewResetInput
        let s6 := s5.placeEmuViews
        s6.emit (Effect.setSystemGestureExclusion true) := by
  unfold showEmulationView showEmulationViewTrace
  by_cases h : s.showingEmulation = true
  · rw [if_pos h, if_pos h]
    rfl
  · rw [if_neg h, if_neg h]
    rfl

@[simp]
theorem emit_showingEmulation (s : EmuViewController) (x : Effect) :
    (s.emit x).showingEmulation = s.showingEmulation := rfl

@[simp]
theorem emit_emuViewWindow (s : EmuViewController) (x : Effect) :
    (s.emit x).emuViewWindow = s.emuViewWindow := rfl

@[simp]
theorem emit_emuInputViewWindow (s : EmuViewController) (x : Effect) :
    (s.emit x).emuInputViewWindow = s.emuInputViewWindow := rfl

@[simp]
theorem emit_popupWindow (s : EmuViewController) (x : Effect) :
    (s.emit x).popupWindow = s.popupWindow := rfl

@[simp]
theorem emit_viewStack (s : EmuViewController) (x : Effect) :
    (s.emit x).viewStack = s.viewStack := rfl

@[simp]
theorem emit_windowData (s : EmuViewController) (x : Effect) :
    (s.emit x).windowData = s.windowData := rfl

@[simp]
theorem emit_log (s : EmuViewController) (x : Effect) :
    (s.emit x).log = s.log ++ [x] := rfl

@[simp]
theorem movePopupToWindow_showingEmulation (win : Window) (s : EmuViewController) :
    (movePopupToWindow win s).showingEmulation = s.showingEmulation := by
  unfold movePopupToWindow
  by_cases h : s.popupWindow = win <;> simp [h, setHasPopup]

@[simp]
theorem configureWindowForEmulation_showingEmulation (env : Env) (win : Window)
    (running : Bool) (s : EmuViewController) :
    (configureWindowForEmulation env win running s).showingEmulation = s.showingEmulation := by
  unfold configureWindowForEmulation
  by_cases h : env.SCREEN_FRAME_INTERVAL <;> simp [h]

theorem showEmulationView_showingEmulation (env : Env) (s : EmuViewController) :
    (showEmulationView env s).showingEmulation = true := by
  rw [showEmulationView_eq]
  by_cases h : s.showingEmulation = true
  · simp [h]
  · simp [h, placeEmuViews, apply_ite EmuViewController.showingEmulation]

end EmuViewController

/-! ## Mode switching -/

/-- C1: for every controller state, a call of `showEmulationView` leaves
`showingEmulation` true, and a second call right after it returns the state it was given:
the state, the window records and the log of collaborator calls (top view `onHide`,
window reconfiguration, overlay `postDraw` and `resetInput`, `placeEmuViews`, gesture
exclusion) are those of a single call. -/
theorem showEmulationView_twice (env : Env) (s : EmuViewController) :
    (EmuViewController.showEmulationView env s).showingEmulation = true ∧
    EmuViewController.showEmulationView env (EmuViewController.showEmulationView env s)
      = EmuViewController.showEmulationView env s ∧
    issued (EmuViewController.showEmulationView env s)
      (EmuViewController.showEmulationView env (EmuViewController.showEmulationView env s)) = [] := by
  have h := EmuViewController.showEmulationView_showingEmulation env s
  have h2 : EmuViewController.showEmulationView env (EmuViewController.showEmulationView env s)
      = EmuViewController.showEmulationView env s := by
    generalize EmuViewController.showEmulationView env s = t at h
    rw [EmuViewController.showEmulationView_eq]
    simp [h]
  refine ⟨h, h2, ?_⟩
  rw [h2]
  simp [issued]

/-- C2: in MENU mode (`showingEmulation = false`) `showMenuView` returns the state it was
given, for both values of `updateTopView`: controller state and window records are
unchanged and no collaborator call is recorded. -/
theorem showMenuView_in_menu_mode (env : Env) (updateTopView : Bool) (s : EmuViewController)
    (h : s.showingEmulation = false) :
    EmuViewController.showMenuView env updateTopView s = s ∧
    issued s (EmuViewController.showMenuView env updateTopView s) = [] := by
  have h2 : EmuViewController.showMenuView env updateTopView s = s := by
    unfold EmuViewController.showMenuView
    simp [h]
  rw [h2]
  exact ⟨rfl, by simp [issued]⟩

/-- Witness for C2 on the initial menu state, with and without top view update. -/
theorem showMenuView_in_menu_mode_witness :
    menuState.showingEmulation = false ∧
    EmuViewController.showMenuView linuxEnv true menuState = menuState ∧
    issued menuState (EmuViewController.showMenuView linuxEnv true menuState) = [] :=
  ⟨rfl, showMenuView_in_menu_mode linuxEnv true menuState rfl⟩

/-! ## Moving the emulation view -/

/-- C5: for distinct windows `winA` and `winB` with the emulation view on `winA`, after
`moveEmuViewToWindow(winB)` the record of `winA` has `hasEmuView = false`, the record of
`winB` has `hasEmuView = true` and the emulation view is on `winB`; a second
`moveEmuViewToWindow(winB)` returns the state it was given, so no flag, window
association, draw priority or layout-input binding changes and no `applyViewRect` call is
recorded. -/
theorem moveEmuViewToWindow_then_again (env : Env) (winA winB : Window) (s : EmuViewController)
    (hne : winA ≠ winB) (hA : s.emuViewWindow = winA) :
    ((EmuViewController.moveEmuViewToWindow env winB s).windowData winA).hasEmuView = false ∧
    ((EmuViewController.moveEmuViewToWindow env winB s).windowData winB).hasEmuView = true ∧
    (EmuViewController.moveEmuViewToWindow env winB s).emuViewWindow = winB ∧
    EmuViewController.moveEmuViewToWindow env winB (EmuViewController.moveEmuViewToWindow env winB s)
      = EmuViewController.moveEmuViewToWindow env winB s ∧
    issued (EmuViewController.moveEmuViewToWindow env winB s)
      (EmuViewController.moveEmuViewToWindow env winB
        (EmuViewController.moveEmuViewToWindow env winB s)) = [] := by
  subst hA
  have hw : (EmuViewController.moveEmuViewToWindow env winB s).emuViewWindow = winB := by
    unfold EmuViewController.moveEmuViewToWindow
    simp only [hne, if_false]
    split <;> rfl
  have h2 : EmuViewController.moveEmuViewToWindow env winB
      (EmuViewController.moveEmuViewToWindow env winB s)
      = EmuViewController.moveEmuViewToWindow env winB s := by
    generalize EmuViewController.moveEmuViewToWindow env winB s = t at hw
    unfold EmuViewController.moveEmuViewToWindow
    simp [hw]
  refine ⟨?_, ?_, hw, h2, ?_⟩
  · unfold EmuViewController.moveEmuViewToWindow
    simp only [hne, if_false]
    split <;> split <;>
      simp [EmuViewController.setHasEmuView, EmuViewController.emit, setDrawEventPriority, hne]
  · unfold EmuViewController.moveEmuViewToWindow
    simp only [hne, if_false]
    split <;> split <;>
      simp [EmuViewController.setHasEmuView, EmuViewController.emit, setDrawEventPriority]
  · rw [h2]
    simp [issued]

/-- Witness for C5: the emulation view of the initial menu state moves from window 0 to
window 1. -/
theorem moveEmuViewToWindow_then_again_witness :
    ((EmuViewController.moveEmuViewToWindow linuxEnv 1 menuState).windowData 0).hasEmuView = false ∧
    ((EmuViewController.moveEmuViewToWindow linuxEnv 1 menuState).windowData 1).hasEmuView = true ∧
    (EmuViewController.moveEmuViewToWindow linuxEnv 1 menuState).emuViewWindow = 1 ∧
    EmuViewController.moveEmuViewToWindow linuxEnv 1
      (EmuViewController.moveEmuViewToWindow linuxEnv 1 menuState)
      = EmuViewController.moveEmuViewToWindow linuxEnv 1 menuState ∧
    issued (EmuViewController.moveEmuViewToWindow linuxEnv 1 menuState)
      (EmuViewController.moveEmuViewToWindow linuxEnv 1
        (EmuViewController.moveEmuViewToWindow linuxEnv 1 menuState)) = [] :=
  moveEmuViewToWindow_then_again linuxEnv 0 1 menuState (by decide) rfl

/-! ## Input routing -/

/-- The calls recorded between `s` and `t` are what `t` appended to the log of `s`. -/
theorem issued_of_log (s t : EmuViewController) (d : List Effect) (h : t.log = s.log ++ d) :
    issued s t = d := by
  simp [issued, h]

/-- Shape of the log after `EmuMenuViewStack::inputEvent`: the delivery to the stack,
followed by at most one application or stack call. -/
theorem EmuMenuViewStack.inputEvent_log (env : Env) (e : Event) (s : EmuViewController) :
    ∃ tl, (EmuMenuViewStack.inputEvent env e s).2.log = s.log ++ Effect.viewStackInputEvent e :: tl ∧
      (tl = [] ∨ tl = [Effect.showExitAlert e] ∨ tl = [Effect.exit] ∨ tl = [Effect.viewStackShow]
        ∨ tl = [Effect.showEmulation]) := by
  unfold EmuMenuViewStack.inputEvent
  split
  · exact ⟨[], by simp [ViewStack.inputEvent], Or.inl rfl⟩
  · cases hk : e.keyEvent with
    | none => exact ⟨[], by simp [ViewStack.inputEvent], Or.inl rfl⟩
    | some keyEv =>
      simp only
      split
      · split
        · split
          · exact ⟨[], by simp [ViewStack.inputEvent], Or.inl rfl⟩
          · split
            · exact ⟨[Effect.showExitAlert e], by simp [ViewStack.inputEvent], Or.inr (Or.inl rfl)⟩
            · exact ⟨[Effect.exit], by simp [ViewStack.inputEvent], Or.inr (Or.inr (Or.inl rfl))⟩
        · unfold ViewStack.popAndShow
          split
          · exact ⟨[Effect.viewStackShow], by simp [ViewStack.inputEvent, EmuViewController.emit],
              Or.inr (Or.inr (Or.inr (Or.inl rfl)))⟩
          · exact ⟨[], by simp [ViewStack.inputEvent], Or.inl rfl⟩
      · split
        · exact ⟨[Effect.showEmulation], by simp [ViewStack.inputEvent],
            Or.inr (Or.inr (Or.inr (Or.inr rfl)))⟩
        · exact ⟨[], by simp [ViewStack.inputEvent], Or.inl rfl⟩

/-- C7: `extraWindowInputEvent(e)` returns false and leaves the state as it was (nothing
is forwarded to the input overlay) for every event that is not a key event, in either
mode, and for every event while `showingEmulation` is false; when `showingEmulation` is
true and `e` is a key event, `e` is forwarded to the input overlay, once, and the result
is the result of the overlay. -/
theorem extraWindowInputEvent_routing (env : Env) (e : Event) (s : EmuViewController) :
    (e.keyEvent = none → EmuViewController.extraWindowInputEvent env e s = (false, s)) ∧
    (s.showingEmulation = false → EmuViewController.extraWindowInputEvent env e s = (false, s)) ∧
    (s.showingEmulation = true → ∀ k, e = Event.key k →
      EmuViewController.extraWindowInputEvent env e s
        = (env.emuInputViewInputEvent e, s.emit (Effect.emuInputViewInputEvent e)) ∧
      issued s (EmuViewController.extraWindowInputEvent env e s).2
        = [Effect.emuInputViewInputEvent e]) := by
  refine ⟨?_, ?_, ?_⟩
  · intro h
    simp [EmuViewController.extraWindowInputEvent, h]
  · intro h
    simp [EmuViewController.extraWindowInputEvent, h]
  · intro h k hk
    subst hk
    have h1 : EmuViewController.extraWindowInputEvent env (Event.key k) s
        = (env.emuInputViewInputEvent (Event.key k),
            s.emit (Effect.emuInputViewInputEvent (Event.key k))) := by
      simp [EmuViewController.extraWindowInputEvent, h, Event.keyEvent]
    refine ⟨h1, ?_⟩
    rw [h1]
    exact issued_of_log _ _ _ rfl

/-- Witness for C7: a pointer event in EMULATION mode, a key event in MENU mode, and a key
event in EMULATION mode. -/
theorem extraWindowInputEvent_routing_witness :
    EmuViewController.extraWindowInputEvent linuxEnv pointerEvent emulationState
      = (false, emulationState) ∧
    EmuViewController.extraWindowInputEvent linuxEnv (Event.key cancelKey) menuState
      = (false, menuState) ∧
    (EmuViewController.extraWindowInputEvent linuxEnv (Event.key cancelKey) emulationState
        = (linuxEnv.emuInputViewInputEvent (Event.key cancelKey),
            emulationState.emit (Effect.emuInputViewInputEvent (Event.key cancelKey))) ∧
      issued emulationState
        (EmuViewController.extraWindowInputEvent linuxEnv (Event.key cancelKey) emulationState).2
        = [Effect.emuInputViewInputEvent (Event.key cancelKey)]) :=
  ⟨(extraWindowInputEvent_routing linuxEnv pointerEvent emulationState).1 rfl,
   (extraWindowInputEvent_routing linuxEnv (Event.key cancelKey) menuState).2.1 rfl,
   (extraWindowInputEvent_routing linuxEnv (Event.key cancelKey) emulationState).2.2 rfl
      cancelKey rfl⟩

/-- C8: `inputEvent(e)` routes by mode alone.  When `showingEmulation` is true, `e` goes
to the input overlay only: the result is the result of the overlay, the one recorded call
is the delivery to the overlay, and the view stack is untouched.  When
`showingEmulation` is false, `e` goes to the view stack only: result and state are those
of `EmuMenuViewStack::inputEvent`, the delivery to the stack is recorded first, and no
delivery to the overlay is recorded. -/
theorem inputEvent_routes_by_mode (env : Env) (e : Event) (s : EmuViewController) :
    (s.showingEmulation = true →
      EmuViewController.inputEvent env e s
        = (env.emuInputViewInputEvent e, s.emit (Effect.emuInputViewInputEvent e)) ∧
      issued s (EmuViewController.inputEvent env e s).2 = [Effect.emuInputViewInputEvent e] ∧
      (∀ e2, Effect.viewStackInputEvent e2 ∉ issued s (EmuViewController.inputEvent env e s).2) ∧
      (EmuViewController.inputEvent env e s).2.viewStack = s.viewStack) ∧
    (s.showingEmulation = false →
      EmuViewController.inputEvent env e s = EmuMenuViewStack.inputEvent env e s ∧
      (issued s (EmuViewController.inputEvent env e s).2).head? = some (Effect.viewStackInputEvent e) ∧
      (issued s (EmuViewController.inputEvent env e s).2).count (Effect.viewStackInputEvent e) = 1 ∧
      (∀ e2, Effect.emuInputViewInputEvent e2 ∉ issued s (EmuViewController.inputEvent env e s).2)) := by
  constructor
  · intro h
    have h1 : EmuViewController.inputEvent env e s
        = (env.emuInputViewInputEvent e, s.emit (Effect.emuInputViewInputEvent e)) := by
      simp [EmuViewController.inputEvent, h]
    have h2 : issued s (EmuViewController.inputEvent env e s).2
        = [Effect.emuInputViewInputEvent e] := by
      rw [h1]
      exact issued_of_log _ _ _ rfl
    refine ⟨h1, h2, ?_, ?_⟩
    · intro e2
      rw [h2]
      simp
    · rw [h1]
      rfl
  · intro h
    have h1 : EmuViewController.inputEvent env e s = EmuMenuViewStack.inputEvent env e s := by
      simp [EmuViewController.inputEvent, h]
    obtain ⟨tl, hlog, htl⟩ := EmuMenuViewStack.inputEvent_log env e s
    have h2 : issued s (EmuViewController.inputEvent env e s).2
        = Effect.viewStackInputEvent e :: tl := by
      rw [h1]
      exact issued_of_log _ _ _ hlog
    refine ⟨h1, ?_, ?_, ?_⟩
    · rw [h2]
      rfl
    · rw [h2]
      rcases htl with h | h | h | h | h <;> subst h <;> simp
    · intro e2
      rw [h2]
      rcases htl with h | h | h | h | h <;> subst h <;> simp

/-- Witness for C8: a menu key in EMULATION mode and in MENU mode. -/
theorem inputEvent_routes_by_mode_witness :
    (EmuViewController.inputEvent linuxEnv (Event.key (pushedKey 82)) emulationState).2.viewStack
      = emulationState.viewStack ∧
    EmuViewController.inputEvent linuxEnv (Event.key (pushedKey 82)) menuState
      = EmuMenuViewStack.inputEvent linuxEnv (Event.key (pushedKey 82)) menuState :=
  ⟨((inputEvent_routes_by_mode linuxEnv (Event.key (pushedKey 82)) emulationState).1 rfl).2.2.2,
   ((inputEvent_routes_by_mode linuxEnv (Event.key (pushedKey 82)) menuState).2 rfl).1⟩

/-! ## Global shortcuts of the menu stack -/

/-- What `EmuMenuViewStack::inputEvent` does with a key event that the top view did not
consume. -/
theorem EmuMenuViewStack.inputEvent_key (env : Env) (k : KeyEvent) (s : EmuViewController)
    (hnc : (ViewStack.inputEvent (Event.key k) s).1 = false) :
    EmuMenuViewStack.inputEvent env (Event.key k) s =
      if k.pushedDefault env DefaultKey.CANCEL = true then
        if s.viewStack.size = 1 then
          if k.repeated = true then (true, s.emit (Effect.viewStackInputEvent (Event.key k)))
          else if (env.hasContent || (!env.hasContent && !shouldExitFromViewRootWithoutPrompt env k)) = true then
            (true, (s.emit (Effect.viewStackInputEvent (Event.key k))).emit
              (Effect.showExitAlert (Event.key k)))
          else
            (true, (s.emit (Effect.viewStackInputEvent (Event.key k))).emit Effect.exit)
        else (true, ViewStack.popAndShow (s.emit (Effect.viewStackInputEvent (Event.key k))))
      else if (k.pushed && s.isMenuDismissKey env k && !s.viewStack.hasModalView) = true then
        (true, (s.emit (Effect.viewStackInputEvent (Event.key k))).emit Effect.showEmulation)
      else (false, s.emit (Effect.viewStackInputEvent (Event.key k))) := by
  unfold EmuMenuViewStack.inputEvent
  simp only [hnc, Event.keyEvent]
  simp [ViewStack.inputEvent, EmuViewController.isMenuDismissKey, EmuViewController.hasModalView]

/-- C3, as stated, fails: on a build with content loaded, a pushed cancel key that is a
repeat of a held key, not consumed by the top view of a stack of size 1, returns true
with the delivery to the stack as the only recorded call; `showExitAlert` is not
invoked. -/
theorem repeated_cancel_shows_no_alert :
    linuxEnv.hasContent = true ∧
    menuState.viewStack.size = 1 ∧
    cancelKeyRepeated.pushedDefault linuxEnv DefaultKey.CANCEL = true ∧
    (ViewStack.inputEvent (Event.key cancelKeyRepeated) menuState).1 = false ∧
    issued menuState (EmuMenuViewStack.inputEvent linuxEnv (Event.key cancelKeyRepeated) menuState).2
      = [Effect.viewStackInputEvent (Event.key cancelKeyRepeated)] ∧
    Effect.showExitAlert (Event.key cancelKeyRepeated) ∉
      issued menuState (EmuMenuViewStack.inputEvent linuxEnv (Event.key cancelKeyRepeated) menuState).2 := by
  decide

/-- C3, amended: for every pushed cancel key not consumed by the top view, at stack size 1
with content loaded: when the key is not a repeat, `showExitAlert` is invoked (once, right
after the delivery to the stack) and `exit` is not; when the key is a repeat, neither is
invoked.  In both cases the function returns true. -/
theorem root_cancel_with_content (env : Env) (k : KeyEvent) (s : EmuViewController)
    (hpush : k.pushedDefault env DefaultKey.CANCEL = true)
    (hnc : (ViewStack.inputEvent (Event.key k) s).1 = false)
    (hsize : s.viewStack.size = 1)
    (hcontent : env.hasContent = true) :
    (k.repeated = false →
      EmuMenuViewStack.inputEvent env (Event.key k) s
        = (true, (s.emit (Effect.viewStackInputEvent (Event.key k))).emit
            (Effect.showExitAlert (Event.key k))) ∧
      issued s (EmuMenuViewStack.inputEvent env (Event.key k) s).2
        = [Effect.viewStackInputEvent (Event.key k), Effect.showExitAlert (Event.key k)] ∧
      Effect.exit ∉ issued s (EmuMenuViewStack.inputEvent env (Event.key k) s).2) ∧
    (k.repeated = true →
      EmuMenuViewStack.inputEvent env (Event.key k) s
        = (true, s.emit (Effect.viewStackInputEvent (Event.key k))) ∧
      issued s (EmuMenuViewStack.inputEvent env (Event.key k) s).2
        = [Effect.viewStackInputEvent (Event.key k)]) := by
  constructor
  · intro hrep
    have hr : EmuMenuViewStack.inputEvent env (Event.key k) s
        = (true, (s.emit (Effect.viewStackInputEvent (Event.key k))).emit
            (Effect.showExitAlert (Event.key k))) := by
      rw [EmuMenuViewStack.inputEvent_key env k s hnc]
      simp only [hpush, hsize, hrep, hcontent, if_true, Bool.true_or, Bool.false_eq_true, if_false]
    have hi : issued s (EmuMenuViewStack.inputEvent env (Event.key k) s).2
        = [Effect.viewStackInputEvent (Event.key k), Effect.showExitAlert (Event.key k)] := by
      rw [hr]
      exact issued_of_log _ _ _ (by simp)
    refine ⟨hr, hi, ?_⟩
    rw [hi]
    simp
  · intro hrep
    have hr : EmuMenuViewStack.inputEvent env (Event.key k) s
        = (true, s.emit (Effect.viewStackInputEvent (Event.key k))) := by
      rw [EmuMenuViewStack.inputEvent_key env k s hnc]
      simp only [hpush, hsize, hrep, if_true]
    refine ⟨hr, ?_⟩
    rw [hr]
    exact issued_of_log _ _ _ (by simp)

/-- Witness for the amended C3: first press and repeat of the cancel key on the root menu
with content loaded. -/
theorem root_cancel_with_content_witness :
    issued menuState (EmuMenuViewStack.inputEvent linuxEnv (Event.key cancelKey) menuState).2
      = [Effect.viewStackInputEvent (Event.key cancelKey),
          Effect.showExitAlert (Event.key cancelKey)] ∧
    issued menuState (EmuMenuViewStack.inputEvent linuxEnv (Event.key cancelKeyRepeated) menuState).2
      = [Effect.viewStackInputEvent (Event.key cancelKeyRepeated)] :=
  ⟨((root_cancel_with_content linuxEnv cancelKey menuState rfl rfl rfl rfl).1 rfl).2.1,
   ((root_cancel_with_content linuxEnv cancelKeyRepeated menuState rfl rfl rfl rfl).2 rfl).2⟩

/-- C4: for every pushed cancel key not consumed by the top view, at stack size greater
than 1, `EmuMenuViewStack::inputEvent` returns true and does `popAndShow()` once: the top
entry is removed, the stack is one shorter, the new top is re-shown, and neither
`showExitAlert` nor `exit` nor `showEmulation` is invoked. -/
theorem cancel_above_root_pops_one (env : Env) (k : KeyEvent) (s : EmuViewController)
    (hpush : k.pushedDefault env DefaultKey.CANCEL = true)
    (hnc : (ViewStack.inputEvent (Event.key k) s).1 = false)
    (hsize : 1 < s.viewStack.size) :
    EmuMenuViewStack.inputEvent env (Event.key k) s
      = (true, ViewStack.popAndShow (s.emit (Effect.viewStackInputEvent (Event.key k)))) ∧
    (EmuMenuViewStack.inputEvent env (Event.key k) s).2.viewStack.view = s.viewStack.view.dropLast ∧
    (EmuMenuViewStack.inputEvent env (Event.key k) s).2.viewStack.size + 1 = s.viewStack.size ∧
    issued s (EmuMenuViewStack.inputEvent env (Event.key k) s).2
      = [Effect.viewStackInputEvent (Event.key k), Effect.viewStackShow] := by
  have hne : ¬ s.viewStack.size = 1 := by omega
  have hr : EmuMenuViewStack.inputEvent env (Event.key k) s
      = (true, ViewStack.popAndShow (s.emit (Effect.viewStackInputEvent (Event.key k)))) := by
    rw [EmuMenuViewStack.inputEvent_key env k s hnc]
    simp only [hpush, hne, if_true, if_false]
  have hp : ViewStack.popAndShow (s.emit (Effect.viewStackInputEvent (Event.key k)))
      = ({ s.emit (Effect.viewStackInputEvent (Event.key k)) with
            viewStack := { s.viewStack with view := s.viewStack.view.dropLast } }).emit
          Effect.viewStackShow := by
    unfold ViewStack.popAndShow
    simp [hsize]
  rw [hr, hp]
  refine ⟨rfl, rfl, ?_, ?_⟩
  · simp only [EmuViewController.emit_viewStack, ViewStack.size, List.length_dropLast]
    simp only [ViewStack.size] at hsize
    omega
  · exact issued_of_log _ _ _ (by simp [EmuViewController.emit])

/-- Witness for C4: the cancel key with the system actions menu on top of the root menu. -/
theorem cancel_above_root_pops_one_witness :
    (EmuMenuViewStack.inputEvent linuxEnv (Event.key cancelKey) systemActionsState).2.viewStack.size + 1
      = systemActionsState.viewStack.size ∧
    issued systemActionsState
        (EmuMenuViewStack.inputEvent linuxEnv (Event.key cancelKey) systemActionsState).2
      = [Effect.viewStackInputEvent (Event.key cancelKey), Effect.viewStackShow] :=
  ⟨(cancel_above_root_pops_one linuxEnv cancelKey systemActionsState rfl rfl (by decide)).2.2.1,
   (cancel_above_root_pops_one linuxEnv cancelKey systemActionsState rfl rfl (by decide)).2.2.2⟩

/-- C9: for every pushed cancel key not consumed by the top view at stack size 1,
`EmuMenuViewStack::inputEvent` returns true, and: when the key is a repeat, neither
`showExitAlert` nor `exit` is invoked; when it is not a repeat, exactly one of the two
follows the delivery to the stack, namely `exit` when the system has no content and the
key map is `SYSTEM` on an Android or Linux build (which is when
`shouldExitFromViewRootWithoutPrompt` holds), and `showExitAlert` in every other case. -/
theorem root_cancel_prompt_or_exit (env : Env) (k : KeyEvent) (s : EmuViewController)
    (hpush : k.pushedDefault env DefaultKey.CANCEL = true)
    (hnc : (ViewStack.inputEvent (Event.key k) s).1 = false)
    (hsize : s.viewStack.size = 1) :
    (EmuMenuViewStack.inputEvent env (Event.key k) s).1 = true ∧
    (k.repeated = true →
      issued s (EmuMenuViewStack.inputEvent env (Event.key k) s).2
        = [Effect.viewStackInputEvent (Event.key k)]) ∧
    (k.repeated = false →
      (env.hasContent = false ∧ k.map = Map.SYSTEM ∧ (env.envIsAndroid = true ∨ env.envIsLinux = true)) →
      issued s (EmuMenuViewStack.inputEvent env (Event.key k) s).2
        = [Effect.viewStackInputEvent (Event.key k), Effect.exit]) ∧
    (k.repeated = false →
      ¬ (env.hasContent = false ∧ k.map = Map.SYSTEM ∧ (env.envIsAndroid = true ∨ env.envIsLinux = true)) →
      issued s (EmuMenuViewStack.inputEvent env (Event.key k) s).2
        = [Effect.viewStackInputEvent (Event.key k), Effect.showExitAlert (Event.key k)]) ∧
    (shouldExitFromViewRootWithoutPrompt env k = true ↔
      k.map = Map.SYSTEM ∧ (env.envIsAndroid = true ∨ env.envIsLinux = true)) := by
  have hs : shouldExitFromViewRootWithoutPrompt env k = true ↔
      k.map = Map.SYSTEM ∧ (env.envIsAndroid = true ∨ env.envIsLinux = true) := by
    simp [shouldExitFromViewRootWithoutPrompt]
  rw [EmuMenuViewStack.inputEvent_key env k s hnc]
  simp only [hpush, hsize, if_true]
  refine ⟨?_, ?_, ?_, ?_, hs⟩
  · split
    · rfl
    · split <;> rfl
  · intro hrep
    simp only [hrep, if_true]
    exact issued_of_log _ _ _ (by simp)
  · intro hrep hc
    have hx : shouldExitFromViewRootWithoutPrompt env k = true := hs.mpr hc.2
    simp only [hrep, hc.1, hx, Bool.false_eq_true, if_false, Bool.false_or, Bool.not_false,
      Bool.not_true, Bool.and_false]
    exact issued_of_log _ _ _ (by simp)
  · intro hrep hc
    have hx : (env.hasContent || (!env.hasContent && !shouldExitFromViewRootWithoutPrompt env k)) = true := by
      cases hcont : env.hasContent with
      | true => rfl
      | false =>
        cases hsh : shouldExitFromViewRootWithoutPrompt env k with
        | false => rfl
        | true => exact absurd ⟨hcont, hs.mp hsh⟩ hc
    simp only [hrep, hx, Bool.false_eq_true, if_false, if_true]
    exact issued_of_log _ _ _ (by simp)

/-- Witness for C9: on a Linux build without content the first press of a system cancel
key exits, its repeat does nothing; with content the first press shows the prompt. -/
theorem root_cancel_prompt_or_exit_witness :
    issued menuState (EmuMenuViewStack.inputEvent linuxEnvNoContent (Event.key cancelKey) menuState).2
      = [Effect.viewStackInputEvent (Event.key cancelKey), Effect.exit] ∧
    issued menuState
        (EmuMenuViewStack.inputEvent linuxEnvNoContent (Event.key cancelKeyRepeated) menuState).2
      = [Effect.viewStackInputEvent (Event.key cancelKeyRepeated)] ∧
    issued menuState (EmuMenuViewStack.inputEvent linuxEnv (Event.key cancelKey) menuState).2
      = [Effect.viewStackInputEvent (Event.key cancelKey), Effect.showExitAlert (Event.key cancelKey)] :=
  ⟨(root_cancel_prompt_or_exit linuxEnvNoContent cancelKey menuState rfl rfl rfl).2.2.1 rfl
      ⟨rfl, rfl, Or.inr rfl⟩,
   (root_cancel_prompt_or_exit linuxEnvNoContent cancelKeyRepeated menuState rfl rfl rfl).2.1 rfl,
   (root_cancel_prompt_or_exit linuxEnv cancelKey menuState rfl rfl rfl).2.2.2.1 rfl (by decide)⟩

/-- C10: for every key event not consumed by the top view and not a pushed cancel key,
`EmuMenuViewStack::inputEvent` either invokes `app().showEmulation()` and returns true, or
records nothing more and returns false.  It switches exactly when the key is pushed,
`isMenuDismissKey` holds and the stack has no modal view; with no modal view,
`isMenuDismissKey` holds exactly when the key is `MENU` or `GAME_Y`, or, for a Pandora
handheld device on a Pandora build, `SPACE` or `GAME_Y`.  With a modal view active the
switch never happens and the function returns false. -/
theorem menu_dismiss_key (env : Env) (k : KeyEvent) (s : EmuViewController)
    (hnc : (ViewStack.inputEvent (Event.key k) s).1 = false)
    (hcancel : k.pushedDefault env DefaultKey.CANCEL = false) :
    (EmuMenuViewStack.inputEvent env (Event.key k) s
        = (true, (s.emit (Effect.viewStackInputEvent (Event.key k))).emit Effect.showEmulation) ∨
      EmuMenuViewStack.inputEvent env (Event.key k) s
        = (false, s.emit (Effect.viewStackInputEvent (Event.key k)))) ∧
    (EmuMenuViewStack.inputEvent env (Event.key k) s
        = (true, (s.emit (Effect.viewStackInputEvent (Event.key k))).emit Effect.showEmulation) ↔
      k.pushed = true ∧ s.isMenuDismissKey env k = true ∧ s.viewStack.hasModalView = false) ∧
    (s.viewStack.hasModalView = false →
      (s.isMenuDismissKey env k = true ↔
        if env.MACHINE_IS_PANDORA = true ∧ k.deviceSubtype = Subtype.PANDORA_HANDHELD
        then k.key = env.keySPACE ∨ k.key = env.keyGAME_Y
        else k.key = env.keyMENU ∨ k.key = env.keyGAME_Y)) ∧
    (s.viewStack.hasModalView = true →
      EmuMenuViewStack.inputEvent env (Event.key k) s
        = (false, s.emit (Effect.viewStackInputEvent (Event.key k)))) := by
  rw [EmuMenuViewStack.inputEvent_key env k s hnc]
  simp only [hcancel, Bool.false_eq_true, if_false]
  refine ⟨?_, ?_, ?_, ?_⟩
  · split
    · exact Or.inl rfl
    · exact Or.inr rfl
  · constructor
    · intro h
      split at h
      · rename_i hc
        have hc2 : (k.pushed = true ∧ s.isMenuDismissKey env k = true) ∧
            s.viewStack.hasModalView = false := by
          simpa using hc
        exact ⟨hc2.1.1, hc2.1.2, hc2.2⟩
      · exact absurd (congrArg Prod.fst h) (by simp)
    · intro h
      have hc : (k.pushed && s.isMenuDismissKey env k && !s.viewStack.hasModalView) = true := by
        simp [h.1, h.2.1, h.2.2]
      simp only [hc, if_true]
  · intro hm
    unfold EmuViewController.isMenuDismissKey EmuViewController.hasModalView
    by_cases hp : env.MACHINE_IS_PANDORA = true ∧ k.deviceSubtype = Subtype.PANDORA_HANDHELD
    · simp [hp.1, hp.2, hm]
    · have hp2 : (env.MACHINE_IS_PANDORA && k.deviceSubtype == Subtype.PANDORA_HANDHELD) = false := by
        simpa using hp
      simp only [hp, hp2, Bool.false_eq_true, if_false]
      simp
  · intro hm
    simp [hm]

/-- Witness for C10: on the root menu the `MENU` key switches to emulation; under a modal
dialog it does not. -/
theorem menu_dismiss_key_witness :
    EmuMenuViewStack.inputEvent linuxEnv (Event.key (pushedKey 82)) menuState
      = (true, (menuState.emit (Effect.viewStackInputEvent (Event.key (pushedKey 82)))).emit
          Effect.showEmulation) ∧
    EmuMenuViewStack.inputEvent linuxEnv (Event.key (pushedKey 82)) modalState
      = (false, modalState.emit (Effect.viewStackInputEvent (Event.key (pushedKey 82)))) :=
  ⟨(menu_dismiss_key linuxEnv (pushedKey 82) menuState rfl rfl).2.1.mpr ⟨rfl, rfl, rfl⟩,
   (menu_dismiss_key linuxEnv (pushedKey 82) modalState rfl rfl).2.2.2 rfl⟩

/-! ## Reaction to the system being closed -/

/-- The lookup finds the first entry of the given name: with no such entry below it, its
index is the number of entries below it. -/
theorem ViewStack.viewIdxFrom_found (name : String) (below : List ViewEntry) (sa : ViewEntry)
    (above : List ViewEntry) (start : Int) (hsa : sa.name = name)
    (hb : ∀ v ∈ below, v.name ≠ name) :
    ViewStack.viewIdxFrom name (below ++ sa :: above) start = start + below.length := by
  induction below generalizing start with
  | nil => simp [ViewStack.viewIdxFrom, hsa]
  | cons b rest ih =>
    have hbn : b.name ≠ name := hb b (List.mem_cons_self b rest)
    have hrest : ∀ v ∈ rest, v.name ≠ name := fun v hv => hb v (List.mem_cons_of_mem b hv)
    have hstep : ViewStack.viewIdxFrom name (b :: (rest ++ sa :: above)) start
        = ViewStack.viewIdxFrom name (rest ++ sa :: above) (start + 1) := by
      simp [ViewStack.viewIdxFrom, hbn]
    rw [List.cons_append, hstep, ih (start + 1) hrest]
    simp only [List.length_cons, Nat.cast_add, Nat.cast_one]
    omega

/-- The lookup reports a negative value when no entry has the given name. -/
theorem ViewStack.viewIdxFrom_absent (name : String) (l : List ViewEntry) (start : Int)
    (h : ∀ v ∈ l, v.name ≠ name) :
    ViewStack.viewIdxFrom name l start = -1 := by
  induction l generalizing start with
  | nil => rfl
  | cons b rest ih =>
    have hbn : b.name ≠ name := h b (List.mem_cons_self b rest)
    have hrest : ∀ v ∈ rest, v.name ≠ name := fun v hv => h v (List.mem_cons_of_mem b hv)
    have hstep : ViewStack.viewIdxFrom name (b :: rest) start
        = ViewStack.viewIdxFrom name rest (start + 1) := by
      simp [ViewStack.viewIdxFrom, hbn]
    rw [hstep]
    exact ih (start + 1) hrest

/-- C6, as stated, fails: when the only entry of the stack is named "System Actions" it is
found (at index 0), and after `onSystemClosed` it is still in the stack, which still has
one entry. -/
theorem system_actions_root_survives_close :
    systemActionsRootState.viewStack.contains "System Actions" = true ∧
    systemActionsRootState.viewStack.viewIdx "System Actions" = 0 ∧
    (EmuViewController.onSystemClosed systemActionsRootState).viewStack.contains "System Actions"
      = true ∧
    (EmuViewController.onSystemClosed systemActionsRootState).viewStack.size = 1 := by
  decide

/-- C6, amended: `onSystemClosed` hides the right button of the navigation view.  When the
first entry named "System Actions" has at least one entry below it, so that its index
`idx` is greater than 0, the stack is popped by `popTo(idx - 1)` to the entry just below
it: exactly the entries below it remain.  When no entry has that name, or when the entry
of that name is the root, the entries of the stack are left as they are.  With the root
menu and "System Actions" on it, the stack has depth 1 afterwards. -/
theorem onSystemClosed_pops_below_system_actions (s : EmuViewController) :
    (EmuViewController.onSystemClosed s).viewStack.navRightBtn = false ∧
    (∀ below sa above, s.viewStack.view = below ++ sa :: above →
      sa.name = "System Actions" → (∀ v ∈ below, v.name ≠ "System Actions") → below ≠ [] →
        s.viewStack.viewIdx "System Actions" = below.length ∧
        EmuViewController.onSystemClosed s
          = ViewStack.popTo ((below.length : Int) - 1) (ViewStack.showRightBtn false s) ∧
        (EmuViewController.onSystemClosed s).viewStack.view = below) ∧
    (s.viewStack.contains "System Actions" = false →
      (EmuViewController.onSystemClosed s).viewStack.view = s.viewStack.view) ∧
    (∀ sa above, s.viewStack.view = sa :: above → sa.name = "System Actions" →
      (EmuViewController.onSystemClosed s).viewStack.view = s.viewStack.view) ∧
    (∀ root sa, s.viewStack.view = [root, sa] →
      root.name ≠ "System Actions" → sa.name = "System Actions" →
      (EmuViewController.onSystemClosed s).viewStack.size = 1) := by
  have hmain : ∀ below sa above, s.viewStack.view = below ++ sa :: above →
      sa.name = "System Actions" → (∀ v ∈ below, v.name ≠ "System Actions") → below ≠ [] →
        s.viewStack.viewIdx "System Actions" = below.length ∧
        EmuViewController.onSystemClosed s
          = ViewStack.popTo ((below.length : Int) - 1) (ViewStack.showRightBtn false s) ∧
        (EmuViewController.onSystemClosed s).viewStack.view = below := by
    intro below sa above hview hsa hb hne
    have hidx : s.viewStack.viewIdx "System Actions" = below.length := by
      unfold ViewStack.viewIdx
      rw [hview, ViewStack.viewIdxFrom_found _ below sa above 0 hsa hb]
      simp
    have hpos : 0 < below.length := List.length_pos.mpr hne
    have hpos2 : (0 : Int) < (below.length : Int) := by exact_mod_cast hpos
    have hclosed : EmuViewController.onSystemClosed s
        = ViewStack.popTo ((below.length : Int) - 1) (ViewStack.showRightBtn false s) := by
      unfold EmuViewController.onSystemClosed
      simp only [ViewStack.showRightBtn]
      unfold ViewStack.viewIdx
      simp only [hview, ViewStack.viewIdxFrom_found _ below sa above 0 hsa hb, zero_add, hpos2,
        if_true]
    refine ⟨hidx, hclosed, ?_⟩
    rw [hclosed]
    unfold ViewStack.popTo
    have hcond : 0 ≤ (below.length : Int) - 1 ∧
        (below.length : Int) - 1 < ((ViewStack.showRightBtn false s).viewStack.size : Int) := by
      simp only [ViewStack.showRightBtn, ViewStack.size, hview, List.length_append,
        List.length_cons, Nat.cast_add, Nat.cast_one]
      omega
    have htoNat : ((below.length : Int) - 1).toNat + 1 = below.length := by omega
    simp only [hcond, and_self, if_true, htoNat]
    simp [ViewStack.showRightBtn, hview]
  refine ⟨?_, hmain, ?_, ?_, ?_⟩
  · unfold EmuViewController.onSystemClosed ViewStack.popTo
    simp only [ViewStack.showRightBtn]
    split
    · split <;> rfl
    · rfl
  · intro hc
    have habs : ∀ v ∈ s.viewStack.view, v.name ≠ "System Actions" := by
      intro v hv hname
      have : s.viewStack.contains "System Actions" = true := by
        unfold ViewStack.contains
        exact List.any_eq_true.mpr ⟨v, hv, by simp [hname]⟩
      rw [hc] at this
      exact Bool.false_ne_true this
    unfold EmuViewController.onSystemClosed
    simp only [ViewStack.showRightBtn, ViewStack.viewIdx,
      ViewStack.viewIdxFrom_absent _ _ 0 habs]
    rfl
  · intro sa above hview hsa
    unfold EmuViewController.onSystemClosed
    simp only [ViewStack.showRightBtn, ViewStack.viewIdx, hview, ViewStack.viewIdxFrom, hsa,
      beq_self_eq_true, if_true, lt_self_iff_false, if_false]
  · intro root sa hview hroot hsa
    have h := hmain [root] sa [] (by simpa using hview) hsa
      (by intro v hv; rw [List.mem_singleton] at hv; rw [hv]; exact hroot) (by simp)
    simp [ViewStack.size, h.2.2]

/-- Witness for the amended C6: with the system actions menu on the root menu the stack
has depth 1 after the system is closed. -/
theorem onSystemClosed_pops_below_system_actions_witness :
    systemActionsState.viewStack.size = 2 ∧
    (EmuViewController.onSystemClosed systemActionsState).viewStack.size = 1 :=
  ⟨rfl, (onSystemClosed_pops_below_system_actions systemActionsState).2.2.2.2
    mainMenuView systemActionsView rfl (by decide) rfl⟩

/-! ## Draw priority and layout-input binding on a move -/

/-- C11, as stated, fails: in MENU mode, with the emulation view on window 0 holding
draw-event priority 1, `moveEmuViewToWindow` to window 1 leaves window 1 at priority 0 and
window 0 at priority 1: the priority of the origin window is not transferred. -/
theorem menu_mode_move_keeps_priorities :
    menuStatePriority.showingEmulation = false ∧
    menuStatePriority.emuViewWindow ≠ 1 ∧
    menuStatePriority.drawEventPriority menuStatePriority.emuViewWindow = 1 ∧
    (EmuViewController.moveEmuViewToWindow linuxEnv 1 menuStatePriority).drawEventPriority 1 = 0 ∧
    (EmuViewController.moveEmuViewToWindow linuxEnv 1 menuStatePriority).drawEventPriority 0 = 1 := by
  decide

/-- C11, amended: for every `moveEmuViewToWindow(win)` with `win` different from the
current window of the emulation view: in EMULATION mode the draw-event priority of the
origin window is transferred to `win` (the origin is left with the default priority and
no other window changes); in MENU mode no draw-event priority changes.  In both modes the
layout-input view of the emulation view is afterwards the input overlay when `win` is the
main window of the application and unset for any other window. -/
theorem moveEmuViewToWindow_priority_and_layout (env : Env) (win : Window) (s : EmuViewController)
    (hne : s.emuViewWindow ≠ win) :
    (s.showingEmulation = true →
      (EmuViewController.moveEmuViewToWindow env win s).drawEventPriority win
        = s.drawEventPriority s.emuViewWindow ∧
      (EmuViewController.moveEmuViewToWindow env win s).drawEventPriority s.emuViewWindow
        = env.defaultDrawEventPriority ∧
      (∀ w, w ≠ win → w ≠ s.emuViewWindow →
        (EmuViewController.moveEmuViewToWindow env win s).drawEventPriority w
          = s.drawEventPriority w)) ∧
    (s.showingEmulation = false →
      (EmuViewController.moveEmuViewToWindow env win s).drawEventPriority = s.drawEventPriority) ∧
    (win = env.mainWindow →
      (EmuViewController.moveEmuViewToWindow env win s).layoutInputView
        = some ViewRef.emuInputView) ∧
    (win ≠ env.mainWindow →
      (EmuViewController.moveEmuViewToWindow env win s).layoutInputView = none) := by
  have hne2 : ¬ win = s.emuViewWindow := fun h => hne h.symm
  refine ⟨?_, ?_, ?_, ?_⟩
  · intro hmode
    unfold EmuViewController.moveEmuViewToWindow
    simp only [hne, if_false, hmode, if_true]
    refine ⟨?_, ?_, ?_⟩
    · split <;>
        simp [EmuViewController.setHasEmuView, EmuViewController.emit, setDrawEventPriority, hne2]
    · split <;>
        simp [EmuViewController.setHasEmuView, EmuViewController.emit, setDrawEventPriority, hne]
    · intro w hw1 hw2
      split <;>
        simp [EmuViewController.setHasEmuView, EmuViewController.emit, setDrawEventPriority,
          hw1, hw2]
  · intro hmode
    unfold EmuViewController.moveEmuViewToWindow
    simp only [hne, if_false, hmode, Bool.false_eq_true]
    split <;> rfl
  · intro hmain
    unfold EmuViewController.moveEmuViewToWindow
    simp only [hne, if_false]
    simp only [hmain, if_true]
  · intro hmain
    unfold EmuViewController.moveEmuViewToWindow
    simp only [hne, if_false, hmain]

/-- Witness for the amended C11: the emulation view moves from window 0, of priority 1, to
window 1, which is not the main window, in EMULATION mode and in MENU mode. -/
theorem moveEmuViewToWindow_priority_and_layout_witness :
    (EmuViewController.moveEmuViewToWindow linuxEnv 1 emulationStatePriority).drawEventPriority 1
      = 1 ∧
    (EmuViewController.moveEmuViewToWindow linuxEnv 1 menuStatePriority).drawEventPriority
      = menuStatePriority.drawEventPriority ∧
    (EmuViewController.moveEmuViewToWindow linuxEnv 1 menuStatePriority).layoutInputView = none :=
  ⟨((moveEmuViewToWindow_priority_and_layout linuxEnv 1 emulationStatePriority
      (by decide)).1 rfl).1,
   (moveEmuViewToWindow_priority_and_layout linuxEnv 1 menuStatePriority (by decide)).2.1 rfl,
   (moveEmuViewToWindow_priority_and_layout linuxEnv 1 menuStatePriority (by decide)).2.2.2
      (by decide)⟩

/-! ## Order of the calls of `showEmulationView` -/

namespace EmuViewController

theorem movePopupToWindow_log (win : Window) (s : EmuViewController) :
    (movePopupToWindow win s).log = s.log := by
  unfold movePopupToWindow
  by_cases h : s.popupWindow = win <;> simp [h, setHasPopup]

theorem movePopupToWindow_emuViewWindow (win : Window) (s : EmuViewController) :
    (movePopupToWindow win s).emuViewWindow = s.emuViewWindow := by
  unfold movePopupToWindow
  by_cases h : s.popupWindow = win <;> simp [h, setHasPopup]

theorem movePopupToWindow_emuInputViewWindow (win : Window) (s : EmuViewController) :
    (movePopupToWindow win s).emuInputViewWindow = s.emuInputViewWindow := by
  unfold movePopupToWindow
  by_cases h : s.popupWindow = win <;> simp [h, setHasPopup]

theorem movePopupToWindow_popupWindow (win : Window) (s : EmuViewController) :
    (movePopupToWindow win s).popupWindow = win := by
  unfold movePopupToWindow
  by_cases h : s.popupWindow = win <;> simp [h, setHasPopup]

theorem movePopupToWindow_hasPopup (win : Window) (s : EmuViewController)
    (hne : s.popupWindow ≠ win) :
    ((movePopupToWindow win s).windowData win).hasPopup = true ∧
    ((movePopupToWindow win s).windowData s.popupWindow).hasPopup = false := by
  unfold movePopupToWindow
  simp [hne, setHasPopup]

theorem movePopupToWindow_hasEmuView (win w : Window) (s : EmuViewController) :
    ((movePopupToWindow win s).windowData w).hasEmuView = (s.windowData w).hasEmuView := by
  unfold movePopupToWindow
  by_cases h : s.popupWindow = win
  · simp [h]
  · simp only [h, if_false, setHasPopup]
    split <;> split <;> rfl

end EmuViewController

/-- The window reconfiguration records its renderer and window calls, then moves the
popup; nothing else of the state changes before the move. -/
theorem EmuViewController.configureWindowForEmulation_eq (env : Env) (win : Window)
    (running : Bool) (s : EmuViewController) :
    EmuViewController.configureWindowForEmulation env win running s
      = EmuViewController.movePopupToWindow
          (if running = true then s.emuViewWindow else s.emuInputViewWindow)
          { s with log := s.log ++
              ((if env.SCREEN_FRAME_INTERVAL = true
                  then [Effect.setFrameInterval win env.frameInterval] else []) ++
                [Effect.setWindowValidOrientations win
                    (if running = true then env.emuOrientation else env.menuOrientation),
                  Effect.setIntendedFrameRate win
                    (if running = true then env.intendedFrameRate win else 0)]) } := by
  unfold EmuViewController.configureWindowForEmulation
  by_cases h : env.SCREEN_FRAME_INTERVAL = true <;> simp [h, EmuViewController.emit]

/-- C12: from MENU mode (`showingEmulation = false`) `showEmulationView` ends with
`showingEmulation = true` and the popup on the window of the emulation view, and its
calls are, in this order: `onHide` of the top menu view; the flag is set; the window of
the emulation view is reconfigured for running mode (frame interval on builds that have
it, emulation orientation, intended frame rate of the application, popup moved to the
window of the emulation view); overlay `postDraw` exactly when the overlay is on another
window than the emulation view; overlay `resetInput`; `place` of the emulation view, then
of the overlay; gesture exclusion enabled.  The order of the flag among the calls is read
off the states after each statement: after the first statement only `onHide` is recorded
and the flag is still false; after the second the flag is true and no further call is
recorded; the reconfiguration calls and the popup move come with the third, when the flag
is already true; the last of these states is the result of `showEmulationView`. -/
theorem showEmulationView_from_menu (env : Env) (s : EmuViewController)
    (h : s.showingEmulation = false) :
    (EmuViewController.showEmulationView env s).showingEmulation = true ∧
    (EmuViewController.showEmulationView env s).emuViewWindow = s.emuViewWindow ∧
    (EmuViewController.showEmulationView env s).popupWindow = s.emuViewWindow ∧
    (s.popupWindow ≠ s.emuViewWindow →
      ((EmuViewController.showEmulationView env s).windowData s.emuViewWindow).hasPopup = true ∧
      ((EmuViewController.showEmulationView env s).windowData s.popupWindow).hasPopup = false) ∧
    issued s (EmuViewController.showEmulationView env s)
      = [Effect.topOnHide] ++
        (if env.SCREEN_FRAME_INTERVAL = true
          then [Effect.setFrameInterval s.emuViewWindow env.frameInterval] else []) ++
        [Effect.setWindowValidOrientations s.emuViewWindow env.emuOrientation,
          Effect.setIntendedFrameRate s.emuViewWindow (env.intendedFrameRate s.emuViewWindow)] ++
        (if s.emuViewWindow ≠ s.emuInputViewWindow then [Effect.emuInputViewPostDraw] else []) ++
        [Effect.emuInputViewResetInput, Effect.emuViewPlace, Effect.emuInputViewPlace,
          Effect.setSystemGestureExclusion true] ∧
    EmuViewController.showEmulationView env s
      = (((if s.emuViewWindow ≠ s.emuInputViewWindow
            then (EmuViewController.configureWindowForEmulation env s.emuViewWindow true
                    { s.emit Effect.topOnHide with showingEmulation := true }).emit
                  Effect.emuInputViewPostDraw
            else EmuViewController.configureWindowForEmulation env s.emuViewWindow true
                    { s.emit Effect.topOnHide with showingEmulation := true }).emit
          Effect.emuInputViewResetInput).placeEmuViews).emit
        (Effect.setSystemGestureExclusion true) ∧
    (EmuViewController.showEmulationViewTrace env s).getLast?
      = some (EmuViewController.showEmulationView env s) ∧
    (EmuViewController.showEmulationViewTrace env s).map (fun t => t.showingEmulation)
      = [false, true, true, true, true, true, true] ∧
    (EmuViewController.showEmulationViewTrace env s).map (fun t => issued s t)
      = [[Effect.topOnHide],
         [Effect.topOnHide],
         [Effect.topOnHide] ++ ((if env.SCREEN_FRAME_INTERVAL = true
              then [Effect.setFrameInterval s.emuViewWindow env.frameInterval] else []) ++
            [Effect.setWindowValidOrientations s.emuViewWindow env.emuOrientation,
              Effect.setIntendedFrameRate s.emuViewWindow (env.intendedFrameRate s.emuViewWindow)]),
         [Effect.topOnHide] ++ ((if env.SCREEN_FRAME_INTERVAL = true
              then [Effect.setFrameInterval s.emuViewWindow env.frameInterval] else []) ++
            [Effect.setWindowValidOrientations s.emuViewWindow env.emuOrientation,
              Effect.setIntendedFrameRate s.emuViewWindow (env.intendedFrameRate s.emuViewWindow)]) ++ (if s.emuViewWindow ≠ s.emuInputViewWindow then [Effect.emuInputViewPostDraw] else []),
         [Effect.topOnHide] ++ ((if env.SCREEN_FRAME_INTERVAL = true
              then [Effect.setFrameInterval s.emuViewWindow env.frameInterval] else []) ++
            [Effect.setWindowValidOrientations s.emuViewWindow env.emuOrientation,
              Effect.setIntendedFrameRate s.emuViewWindow (env.intendedFrameRate s.emuViewWindow)]) ++ (if s.emuViewWindow ≠ s.emuInputViewWindow then [Effect.emuInputViewPostDraw] else []) ++ [Effect.emuInputViewResetInput],
         [Effect.topOnHide] ++ ((if env.SCREEN_FRAME_INTERVAL = true
              then [Effect.setFrameInterval s.emuViewWindow env.frameInterval] else []) ++
            [Effect.setWindowValidOrientations s.emuViewWindow env.emuOrientation,
              Effect.setIntendedFrameRate s.emuViewWindow (env.intendedFrameRate s.emuViewWindow)]) ++ (if s.emuViewWindow ≠ s.emuInputViewWindow then [Effect.emuInputViewPostDraw] else []) ++
            [Effect.emuInputViewResetInput, Effect.emuViewPlace, Effect.emuInputViewPlace],
         [Effect.topOnHide] ++ ((if env.SCREEN_FRAME_INTERVAL = true
              then [Effect.setFrameInterval s.emuViewWindow env.frameInterval] else []) ++
            [Effect.setWindowValidOrientations s.emuViewWindow env.emuOrientation,
              Effect.setIntendedFrameRate s.emuViewWindow (env.intendedFrameRate s.emuViewWindow)]) ++ (if s.emuViewWindow ≠ s.emuInputViewWindow then [Effect.emuInputViewPostDraw] else []) ++
            [Effect.emuInputViewResetInput, Effect.emuViewPlace, Effect.emuInputViewPlace,
              Effect.setSystemGestureExclusion true]] ∧
    (EmuViewController.showEmulationViewTrace env s).map (fun t => t.popupWindow)
      = [s.popupWindow, s.popupWindow, s.emuViewWindow, s.emuViewWindow, s.emuViewWindow,
          s.emuViewWindow, s.emuViewWindow] := by
  have h1 : (EmuViewController.configureWindowForEmulation env s.emuViewWindow true
      { s.emit Effect.topOnHide with showingEmulation := true }).emuViewWindow
        = s.emuViewWindow := by
    rw [EmuViewController.configureWindowForEmulation_eq,
      EmuViewController.movePopupToWindow_emuViewWindow]
    rfl
  have h2 : (EmuViewController.configureWindowForEmulation env s.emuViewWindow true
      { s.emit Effect.topOnHide with showingEmulation := true }).emuInputViewWindow
        = s.emuInputViewWindow := by
    rw [EmuViewController.configureWindowForEmulation_eq,
      EmuViewController.movePopupToWindow_emuInputViewWindow]
    rfl
  have h3 : (EmuViewController.configureWindowForEmulation env s.emuViewWindow true
      { s.emit Effect.topOnHide with showingEmulation := true }).showingEmulation = true := by
    rw [EmuViewController.configureWindowForEmulation_showingEmulation]
  have h4 : (EmuViewController.configureWindowForEmulation env s.emuViewWindow true
      { s.emit Effect.topOnHide with showingEmulation := true }).popupWindow
        = s.emuViewWindow := by
    rw [EmuViewController.configureWindowForEmulation_eq,
      EmuViewController.movePopupToWindow_popupWindow]
    rfl
  have h5 : (EmuViewController.configureWindowForEmulation env s.emuViewWindow true
      { s.emit Effect.topOnHide with showingEmulation := true }).log
        = s.log ++ ([Effect.topOnHide] ++ ((if env.SCREEN_FRAME_INTERVAL = true
              then [Effect.setFrameInterval s.emuViewWindow env.frameInterval] else []) ++
            [Effect.setWindowValidOrientations s.emuViewWindow env.emuOrientation,
              Effect.setIntendedFrameRate s.emuViewWindow (env.intendedFrameRate s.emuViewWindow)])) := by
    rw [EmuViewController.configureWindowForEmulation_eq,
      EmuViewController.movePopupToWindow_log]
    simp [EmuViewController.emit]
  have hs : ∀ T, T = EmuViewController.configureWindowForEmulation env s.emuViewWindow true
        { s.emit Effect.topOnHide with showingEmulation := true } →
      EmuViewController.showEmulationView env s
        = (((if (T.emuViewWindow != T.emuInputViewWindow) = true
              then T.emit Effect.emuInputViewPostDraw else T).emit
            Effect.emuInputViewResetInput).placeEmuViews).emit
          (Effect.setSystemGestureExclusion true) := by
    intro T hT
    subst hT
    rw [EmuViewController.showEmulationView_eq]
    rw [if_neg (by simp [h])]
    rfl
  have htrace : ∀ T, T = EmuViewController.configureWindowForEmulation env s.emuViewWindow true
        { s.emit Effect.topOnHide with showingEmulation := true } →
      EmuViewController.showEmulationViewTrace env s
        = [s.emit Effect.topOnHide,
           { s.emit Effect.topOnHide with showingEmulation := true },
           T,
           (if (T.emuViewWindow != T.emuInputViewWindow) = true
              then T.emit Effect.emuInputViewPostDraw else T),
           (if (T.emuViewWindow != T.emuInputViewWindow) = true
              then T.emit Effect.emuInputViewPostDraw else T).emit Effect.emuInputViewResetInput,
           ((if (T.emuViewWindow != T.emuInputViewWindow) = true
              then T.emit Effect.emuInputViewPostDraw else T).emit
                Effect.emuInputViewResetInput).placeEmuViews,
           (((if (T.emuViewWindow != T.emuInputViewWindow) = true
              then T.emit Effect.emuInputViewPostDraw else T).emit
                Effect.emuInputViewResetInput).placeEmuViews).emit
              (Effect.setSystemGestureExclusion true)] := by
    intro T hT
    subst hT
    unfold EmuViewController.showEmulationViewTrace
    rw [if_neg (by simp [h])]
    rfl
  have hdef : EmuViewController.showEmulationView env s
      = (((if s.emuViewWindow ≠ s.emuInputViewWindow
            then (EmuViewController.configureWindowForEmulation env s.emuViewWindow true
                    { s.emit Effect.topOnHide with showingEmulation := true }).emit
                  Effect.emuInputViewPostDraw
            else EmuViewController.configureWindowForEmulation env s.emuViewWindow true
                    { s.emit Effect.topOnHide with showingEmulation := true }).emit
          Effect.emuInputViewResetInput).placeEmuViews).emit
        (Effect.setSystemGestureExclusion true) := by
    rw [hs _ rfl]
    generalize EmuViewController.configureWindowForEmulation env s.emuViewWindow true
      { s.emit Effect.topOnHide with showingEmulation := true } = T at h1 h2 ⊢
    by_cases hw : s.emuViewWindow = s.emuInputViewWindow <;> simp [h1, h2, hw]
  refine ⟨EmuViewController.showEmulationView_showingEmulation env s, ?_, ?_, ?_, ?_, hdef,
    ?_, ?_, ?_, ?_⟩
  · rw [hdef, EmuViewController.configureWindowForEmulation_eq]
    by_cases hw : s.emuViewWindow = s.emuInputViewWindow <;>
      simp [hw, EmuViewController.placeEmuViews, EmuViewController.movePopupToWindow_emuViewWindow]
  · rw [hdef, EmuViewController.configureWindowForEmulation_eq]
    by_cases hw : s.emuViewWindow = s.emuInputViewWindow <;>
      simp [hw, EmuViewController.placeEmuViews, EmuViewController.movePopupToWindow_popupWindow]
  · intro hp
    rw [hdef, EmuViewController.configureWindowForEmulation_eq]
    have hm := EmuViewController.movePopupToWindow_hasPopup s.emuViewWindow
      { s.emit Effect.topOnHide with
        showingEmulation := true
        log := (s.emit Effect.topOnHide).log ++
          ((if env.SCREEN_FRAME_INTERVAL = true
              then [Effect.setFrameInterval s.emuViewWindow env.frameInterval] else []) ++
            [Effect.setWindowValidOrientations s.emuViewWindow env.emuOrientation,
              Effect.setIntendedFrameRate s.emuViewWindow (env.intendedFrameRate s.emuViewWindow)]) }
      hp
    by_cases hw : s.emuViewWindow = s.emuInputViewWindow <;>
      simpa [hw, EmuViewController.placeEmuViews] using hm
  · apply issued_of_log
    rw [hdef, EmuViewController.configureWindowForEmulation_eq]
    by_cases hw : s.emuViewWindow = s.emuInputViewWindow <;>
      by_cases hf : env.SCREEN_FRAME_INTERVAL = true <;>
      simp [hw, hf, EmuViewController.placeEmuViews, EmuViewController.movePopupToWindow_log]
  · rw [htrace _ rfl, hs _ rfl]
    simp
  · rw [htrace _ rfl]
    generalize EmuViewController.configureWindowForEmulation env s.emuViewWindow true
      { s.emit Effect.topOnHide with showingEmulation := true } = T at h1 h2 h3 h4 h5 ⊢
    by_cases hw : s.emuViewWindow = s.emuInputViewWindow <;>
      simp [h, h1, h2, h3, hw, EmuViewController.placeEmuViews]
  · rw [htrace _ rfl]
    generalize EmuViewController.configureWindowForEmulation env s.emuViewWindow true
      { s.emit Effect.topOnHide with showingEmulation := true } = T at h1 h2 h3 h4 h5 ⊢
    by_cases hw : s.emuViewWindow = s.emuInputViewWindow <;>
      by_cases hf : env.SCREEN_FRAME_INTERVAL = true <;>
      simp [issued, h1, h2, h5, hw, hf, EmuViewController.placeEmuViews]
  · rw [htrace _ rfl]
    generalize EmuViewController.configureWindowForEmulation env s.emuViewWindow true
      { s.emit Effect.topOnHide with showingEmulation := true } = T at h1 h2 h3 h4 h5 ⊢
    by_cases hw : s.emuViewWindow = s.emuInputViewWindow <;>
      simp [h1, h2, h4, hw, EmuViewController.placeEmuViews]

/-- Witness for C12: from the initial menu state, and from a state with the emulation view
on a second window; in the latter the flag is false after `onHide` and true after every
later statement. -/
theorem showEmulationView_from_menu_witness :
    issued menuState (EmuViewController.showEmulationView linuxEnv menuState)
      = [Effect.topOnHide, Effect.setWindowValidOrientations 0 1, Effect.setIntendedFrameRate 0 60,
          Effect.emuInputViewResetInput, Effect.emuViewPlace, Effect.emuInputViewPlace,
          Effect.setSystemGestureExclusion true] ∧
    issued twoWindowState (EmuViewController.showEmulationView linuxEnv twoWindowState)
      = [Effect.topOnHide, Effect.setWindowValidOrientations 1 1, Effect.setIntendedFrameRate 1 60,
          Effect.emuInputViewPostDraw, Effect.emuInputViewResetInput, Effect.emuViewPlace,
          Effect.emuInputViewPlace, Effect.setSystemGestureExclusion true] ∧
    (EmuViewController.showEmulationView linuxEnv twoWindowState).popupWindow = 1 ∧
    (EmuViewController.showEmulationViewTrace linuxEnv twoWindowState).map
        (fun t => t.showingEmulation)
      = [false, true, true, true, true, true, true] :=
  ⟨(showEmulationView_from_menu linuxEnv menuState rfl).2.2.2.2.1,
   (showEmulationView_from_menu linuxEnv twoWindowState rfl).2.2.2.2.1,
   (showEmulationView_from_menu linuxEnv twoWindowState rfl).2.2.1,
   (showEmulationView_from_menu linuxEnv twoWindowState rfl).2.2.2.2.2.2.2.1⟩

/-! ## Draw dispatch -/

/-- C13: for every window and controller state the draw callback of `drawMainWindow` adds
to the command buffer exactly: clear; the projection set from `projM` of the record of
the window; the emulation view exactly when `hasEmuView` is set on the window; then, in
EMULATION mode, the input overlay (always) and after it the popup exactly when `hasPopup`
is set, and in MENU mode the view stack and after it the popup (always); then present.
The controller state is returned as it was given, so `showingEmulation` and every window
flag are unchanged. -/
theorem drawMainWindowCallback_commands (win : Window) (s : EmuViewController)
    (cmds : List DrawCommand) :
    (EmuViewController.drawMainWindowCallback win s cmds).2
      = cmds ++
        ([DrawCommand.clear, DrawCommand.setModelViewProjection (s.windowData win).projM] ++
          (if (s.windowData win).hasEmuView = true then [DrawCommand.emuViewDraw] else []) ++
          (if s.showingEmulation = true
            then [DrawCommand.emuInputViewDraw] ++
              (if (s.windowData win).hasPopup = true then [DrawCommand.popupDraw] else [])
            else [DrawCommand.viewStackDraw, DrawCommand.popupDraw]) ++
          [DrawCommand.present]) ∧
    (EmuViewController.drawMainWindowCallback win s cmds).1 = s ∧
    (EmuViewController.drawMainWindowCallback win s cmds).1.showingEmulation = s.showingEmulation ∧
    (∀ w, (EmuViewController.drawMainWindowCallback win s cmds).1.windowData w = s.windowData w) := by
  refine ⟨?_, rfl, rfl, fun _ => rfl⟩
  unfold EmuViewController.drawMainWindowCallback
  cases hm : s.showingEmulation <;> cases he : (s.windowData win).hasEmuView <;>
    cases hp : (s.windowData win).hasPopup <;> simp [hm, he, hp]

/-! ## Dismissal of a view -/

/-- Polling a hidden view whose animation answers true `n` more times: the poll ends after
`n + 1` ticks, having recorded `n` display updates and then one `doDismiss`. -/
theorem View.pollUntilFalse_hidden (n : Nat) :
    ∀ (a : ViewAnimation) (v : View) (fuel : Nat), v.animation = some a →
      v.displayState = View.HIDE → ViewAnimation.finishesAfter n a = true → n < fuel →
      ∃ w, View.pollUntilFalse fuel v = some w ∧
        w.log = v.log ++ (List.replicate n ViewEffect.displayNeedsUpdate ++
          (ViewEffect.deinit ::
            match v.dismissHandler with
            | some h => [ViewEffect.dismissHandler h]
            | none => [])) := by
  induction n with
  | zero =>
    intro a v fuel ha hd hfin hfuel
    obtain ⟨f, rfl⟩ : ∃ f, fuel = f + 1 := ⟨fuel - 1, by omega⟩
    have hu : (a.update a.state).1 = false := by
      simpa [ViewAnimation.finishesAfter] using hfin
    refine ⟨(v.updateAnimation).2, ?_, ?_⟩
    · simp [View.pollUntilFalse, View.updateAnimation, ha, hu, hd]
    · simp only [View.updateAnimation, ha, hu, hd, Bool.false_eq_true, if_false, if_true]
      cases hh : v.dismissHandler <;> simp [View.doDismiss, View.emit, hh]
  | succ n ih =>
    intro a v fuel ha hd hfin hfuel
    obtain ⟨f, rfl⟩ : ∃ f, fuel = f + 1 := ⟨fuel - 1, by omega⟩
    have hfin2 : (a.update a.state).1 = true ∧
        ViewAnimation.finishesAfter n { a with state := (a.update a.state).2 } = true := by
      simpa [ViewAnimation.finishesAfter] using hfin
    have hstep : v.updateAnimation
        = (true, ({ v with animation := some { a with state := (a.update a.state).2 } }).emit
            ViewEffect.displayNeedsUpdate) := by
      simp [View.updateAnimation, ha, hfin2.1]
    obtain ⟨w, hw, hlog⟩ := ih { a with state := (a.update a.state).2 }
      (({ v with animation := some { a with state := (a.update a.state).2 } }).emit
        ViewEffect.displayNeedsUpdate) f rfl hd hfin2.2 (by omega)
    refine ⟨w, ?_, ?_⟩
    · simp only [View.pollUntilFalse, hstep, if_true]
      exact hw
    · rw [hlog]
      simp [View.emit, List.replicate_succ]

/-- C14: the code evaluated at a view with a dismiss handler and no animation.
`dismiss()` itself invokes `deinit` and the handler, and leaves the display state at
`HIDE`; the first poll of `updateAnimation()` then takes the branch commented "hide
animation done, trigger view to dismiss", invokes both again and returns false.  The
handler and `deinit` are invoked twice in total, where the claim says exactly once. -/
theorem dismiss_without_animation_fires_twice :
    plainView.animation.isNone = true ∧
    plainView.dismissHandler = some 7 ∧
    (View.pollUntilFalse 1 (plainView.dismiss none)).map (fun w => View.issued plainView w)
      = some [ViewEffect.deinit, ViewEffect.dismissHandler 7,
          ViewEffect.deinit, ViewEffect.dismissHandler 7] ∧
    (View.pollUntilFalse 1 (plainView.dismiss none)).map
        (fun w => (View.issued plainView w).count (ViewEffect.dismissHandler 7))
      = some 2 := by
  decide

/-- The sibling paths of the dismissal.  With an animation attached that, once told to
dismiss, answers true to `n` polls and false to the next, `dismiss()` followed by polling
`updateAnimation()` until it returns false ends after `n + 1` polls and invokes `deinit`
and the dismiss handler exactly once in total, at the last poll.  Without an animation,
`dismiss()` itself invokes `deinit` and the dismiss handler exactly once and leaves the
view in display state `HIDE`. -/
theorem dismiss_fires_handler_once (v : View) (h : Nat) (hh : v.dismissHandler = some h) :
    (∀ a n fuel, v.animation = some a →
      ViewAnimation.finishesAfter n { a with state := a.initDismiss a.state } = true →
      n < fuel →
      ∃ w, View.pollUntilFalse fuel (v.dismiss none) = some w ∧
        View.issued v w
          = ViewEffect.displayNeedsUpdate :: (List.replicate n ViewEffect.displayNeedsUpdate ++
              [ViewEffect.deinit, ViewEffect.dismissHandler h]) ∧
        (View.issued v w).count (ViewEffect.dismissHandler h) = 1 ∧
        (View.issued v w).count ViewEffect.deinit = 1) ∧
    (v.animation = none →
      View.issued v (v.dismiss none) = [ViewEffect.deinit, ViewEffect.dismissHandler h] ∧
      (v.dismiss none).displayState = View.HIDE) := by
  constructor
  · intro a n fuel ha hfin hfuel
    have hd : v.dismiss none
        = { ({ v with animation := some { a with state := a.initDismiss a.state } }).emit
              ViewEffect.displayNeedsUpdate with displayState := View.HIDE } := by
      simp [View.dismiss, ha]
    obtain ⟨w, hw, hlog⟩ := View.pollUntilFalse_hidden n { a with state := a.initDismiss a.state }
      (v.dismiss none) fuel (by rw [hd]; rfl) (by rw [hd]) hfin hfuel
    have hi : View.issued v w
        = ViewEffect.displayNeedsUpdate :: (List.replicate n ViewEffect.displayNeedsUpdate ++
            [ViewEffect.deinit, ViewEffect.dismissHandler h]) := by
      have hh2 : (v.dismiss none).dismissHandler = some h := by rw [hd]; exact hh
      have hl2 : (v.dismiss none).log = v.log ++ [ViewEffect.displayNeedsUpdate] := by rw [hd]; rfl
      rw [hh2, hl2] at hlog
      simp [View.issued, hlog]
    refine ⟨w, hw, hi, ?_, ?_⟩
    · rw [hi]
      simp [List.count_cons, List.count_append, List.count_replicate]
    · rw [hi]
      simp [List.count_cons, List.count_append, List.count_replicate]
  · intro ha
    simp [View.dismiss, ha, View.doDismiss, View.emit, hh, View.issued]

/-- A view whose animation runs two more ticks is dismissed and polled: the handler is
invoked once.  A view without animation invokes it once in `dismiss()`. -/
theorem dismiss_fires_handler_once_witness :
    (View.pollUntilFalse 3 (animatedView.dismiss none)).map
        (fun w => (View.issued animatedView w).count (ViewEffect.dismissHandler 7))
      = some 1 ∧
    View.issued plainView (plainView.dismiss none)
      = [ViewEffect.deinit, ViewEffect.dismissHandler 7] := by
  obtain ⟨w, hw, _, hc, _⟩ := (dismiss_fires_handler_once animatedView 7 rfl).1
    (countdownAnimation 2) 2 3 rfl (by decide) (by decide)
  refine ⟨?_, ((dismiss_fires_handler_once plainView 7 rfl).2 rfl).1⟩
  rw [hw]
  simp [hc]

/-! ## The window-association invariant -/

namespace EmuViewController

theorem associationOkAt_emit (s : EmuViewController) (x : Effect) (w : Window) :
    (s.emit x).associationOkAt w = s.associationOkAt w := rfl

theorem associationOkAt_iff (s : EmuViewController) (w : Window) :
    s.associationOkAt w = true ↔
      ((s.windowData w).hasEmuView = true ↔ w = s.emuViewWindow) ∧
      ((s.windowData w).hasPopup = true ↔ w = s.popupWindow) := by
  unfold associationOkAt
  by_cases h1 : w = s.emuViewWindow <;> by_cases h2 : w = s.popupWindow <;>
    cases h3 : (s.windowData w).hasEmuView <;> cases h4 : (s.windowData w).hasPopup <;>
    simp [h1, h2]

theorem associationOkAt_movePopupToWindow (win w : Window) (s : EmuViewController)
    (h : s.associationOkAt w = true) :
    (movePopupToWindow win s).associationOkAt w = true := by
  rw [associationOkAt_iff] at h ⊢
  rw [movePopupToWindow_hasEmuView, movePopupToWindow_emuViewWindow,
    movePopupToWindow_popupWindow]
  refine ⟨h.1, ?_⟩
  unfold movePopupToWindow
  by_cases hp : s.popupWindow = win
  · simp only [hp, if_true]
    rw [← hp]
    exact h.2
  · simp only [hp, if_false, setHasPopup]
    by_cases hw : w = win
    · simp [hw]
    · by_cases hw3 : w = s.popupWindow
      · simp [hw, hw3, hp]
      · have : ¬ (s.windowData w).hasPopup = true := fun hc => hw3 (h.2.mp hc)
        simp [hw, hw3, this]

theorem associationOkAt_moveEmuViewToWindow (env : Env) (win w : Window) (s : EmuViewController)
    (h : s.associationOkAt w = true) :
    (moveEmuViewToWindow env win s).associationOkAt w = true := by
  by_cases hp : s.emuViewWindow = win
  · have : moveEmuViewToWindow env win s = s := by
      unfold moveEmuViewToWindow
      simp [hp]
    rw [this]
    exact h
  · rw [associationOkAt_iff] at h ⊢
    unfold moveEmuViewToWindow
    simp only [hp, if_false]
    by_cases hw : w = win
    · subst hw
      have hp2 : ¬ w = s.emuViewWindow := fun e => hp e.symm
      split <;> split <;>
        simp [setHasEmuView, emit, setDrawEventPriority, h.2, hp2]
    · by_cases hw3 : w = s.emuViewWindow
      · subst hw3
        split <;> split <;>
          simp [setHasEmuView, emit, setDrawEventPriority, h.2, hw]
      · have hf : (s.windowData w).hasEmuView = false := by
          cases hc : (s.windowData w).hasEmuView
          · rfl
          · exact absurd (h.1.mp hc) hw3
        split <;> split <;>
          simp [setHasEmuView, emit, setDrawEventPriority, h.2, hw, hw3, hf]

end EmuViewController

namespace EmuViewController

theorem associationOkAt_configureWindowForEmulation (env : Env) (win w : Window) (running : Bool)
    (s : EmuViewController) (h : s.associationOkAt w = true) :
    (configureWindowForEmulation env win running s).associationOkAt w = true := by
  rw [configureWindowForEmulation_eq]
  exact associationOkAt_movePopupToWindow _ w _ h

theorem associationOkAt_showEmulationView (env : Env) (w : Window) (s : EmuViewController)
    (h : s.associationOkAt w = true) :
    (showEmulationView env s).associationOkAt w = true := by
  rw [showEmulationView_eq]
  split
  · exact h
  · have hc := associationOkAt_configureWindowForEmulation env s.emuViewWindow w true
      { s.emit Effect.topOnHide with showingEmulation := true } h
    simp only [placeEmuViews, associationOkAt_emit]
    split
    · rw [associationOkAt_emit]
      exact hc
    · exact hc

theorem associationOkAt_showMenuView (env : Env) (updateTopView : Bool) (w : Window)
    (s : EmuViewController) (h : s.associationOkAt w = true) :
    (showMenuView env updateTopView s).associationOkAt w = true := by
  unfold showMenuView
  split
  · exact h
  · have hc := associationOkAt_configureWindowForEmulation env s.emuViewWindow w false
      ({ s with showingEmulation := false }.emit (Effect.setSystemGestureExclusion false)) h
    simp only []
    split
    · rw [associationOkAt_emit, associationOkAt_emit, associationOkAt_emit]
      exact hc
    · rw [associationOkAt_emit]
      exact hc

end EmuViewController

/-- C15: if, over a set of windows, `hasEmuView` is set on exactly the window of the
emulation view and `hasPopup` on exactly the window of the popup, the same holds after
`moveEmuViewToWindow(win)`, after `movePopupToWindow(win)`, after `showEmulationView()`
and after `showMenuView(updateTopView)`, for every target window and in either mode.  A
move to another window leaves the flag cleared on the origin and set on the destination,
and a move to the current window returns the state it was given. -/
theorem window_association_preserved (env : Env) (wins : List Window) (win : Window)
    (updateTopView : Bool) (s : EmuViewController) (h : s.associationOk wins = true) :
    (EmuViewController.moveEmuViewToWindow env win s).associationOk wins = true ∧
    (EmuViewController.movePopupToWindow win s).associationOk wins = true ∧
    (EmuViewController.showEmulationView env s).associationOk wins = true ∧
    (EmuViewController.showMenuView env updateTopView s).associationOk wins = true ∧
    (win ≠ s.emuViewWindow →
      ((EmuViewController.moveEmuViewToWindow env win s).windowData s.emuViewWindow).hasEmuView
        = false ∧
      ((EmuViewController.moveEmuViewToWindow env win s).windowData win).hasEmuView = true ∧
      (EmuViewController.moveEmuViewToWindow env win s).emuViewWindow = win) ∧
    (win ≠ s.popupWindow →
      ((EmuViewController.movePopupToWindow win s).windowData s.popupWindow).hasPopup = false ∧
      ((EmuViewController.movePopupToWindow win s).windowData win).hasPopup = true ∧
      (EmuViewController.movePopupToWindow win s).popupWindow = win) ∧
    (win = s.emuViewWindow → EmuViewController.moveEmuViewToWindow env win s = s) ∧
    (win = s.popupWindow → EmuViewController.movePopupToWindow win s = s) := by
  have hall : ∀ w ∈ wins, s.associationOkAt w = true := by
    simpa [EmuViewController.associationOk] using h
  refine ⟨?_, ?_, ?_, ?_, ?_, ?_, ?_, ?_⟩
  · simp only [EmuViewController.associationOk, List.all_eq_true]
    exact fun w hw => EmuViewController.associationOkAt_moveEmuViewToWindow env win w s (hall w hw)
  · simp only [EmuViewController.associationOk, List.all_eq_true]
    exact fun w hw => EmuViewController.associationOkAt_movePopupToWindow win w s (hall w hw)
  · simp only [EmuViewController.associationOk, List.all_eq_true]
    exact fun w hw => EmuViewController.associationOkAt_showEmulationView env w s (hall w hw)
  · simp only [EmuViewController.associationOk, List.all_eq_true]
    exact fun w hw =>
      EmuViewController.associationOkAt_showMenuView env updateTopView w s (hall w hw)
  · intro hne
    have hne2 : ¬ s.emuViewWindow = win := fun e => hne e.symm
    unfold EmuViewController.moveEmuViewToWindow
    simp only [hne2, if_false]
    refine ⟨?_, ?_, ?_⟩
    · split <;> split <;>
        simp [EmuViewController.setHasEmuView, EmuViewController.emit, setDrawEventPriority, hne2]
    · split <;> split <;>
        simp [EmuViewController.setHasEmuView, EmuViewController.emit, setDrawEventPriority]
    · split <;> rfl
  · intro hne
    have hne2 : s.popupWindow ≠ win := fun e => hne e.symm
    exact ⟨(EmuViewController.movePopupToWindow_hasPopup win s hne2).2,
      (EmuViewController.movePopupToWindow_hasPopup win s hne2).1,
      EmuViewController.movePopupToWindow_popupWindow win s⟩
  · intro he
    unfold EmuViewController.moveEmuViewToWindow
    simp [he]
  · intro he
    unfold EmuViewController.movePopupToWindow
    simp [he]

/-- Witness for C15: the initial menu state, over windows 0, 1 and 2, with window 1 as the
target. -/
theorem window_association_preserved_witness :
    menuState.associationOk [0, 1, 2] = true ∧
    (EmuViewController.moveEmuViewToWindow linuxEnv 1 menuState).associationOk [0, 1, 2] = true ∧
    (EmuViewController.movePopupToWindow 1 menuState).associationOk [0, 1, 2] = true ∧
    (EmuViewController.showEmulationView linuxEnv menuState).associationOk [0, 1, 2] = true ∧
    (EmuViewController.showMenuView linuxEnv true menuState).associationOk [0, 1, 2] = true :=
  ⟨by decide,
   (window_association_preserved linuxEnv [0, 1, 2] 1 true menuState (by decide)).1,
   (window_association_preserved linuxEnv [0, 1, 2] 1 true menuState (by decide)).2.1,
   (window_association_preserved linuxEnv [0, 1, 2] 1 true menuState (by decide)).2.2.1,
   (window_association_preserved linuxEnv [0, 1, 2] 1 true menuState (by decide)).2.2.2.1⟩

end EmuEx
